import Mathlib

/-!
Verification development for TNC-Telnet, an AX.25 emulator for TCP
connections (source files: TNC/channel.py, TNC/monitor.py, TNC/tnc.py,
TNC/__main__.py).

Python byte strings are modelled as Lean `String`, one `Char` per byte
(all data handled by the program is 8-bit).  Python `None` for optional
byte strings is modelled as `Option String`.  Fallible Python code is
modelled with `Except PyErr`; the constructors of `PyErr` name the
Python exception class that would be raised.
-/

namespace TNC

/-- Python exception classes that the modelled code can raise. -/
inductive PyErr where
  | valueError
  | typeError
  | nameError
  | indexError
  | attributeError
  | closedPipe
  deriving Repr, DecidableEq

/-! ### Byte-string helpers (Python `bytes` methods) -/

/-- ASCII upper-casing of one byte, as Python `bytes.upper` does per byte. -/
def asciiUpperChar (c : Char) : Char :=
  if 'a' ≤ c ∧ c ≤ 'z' then Char.ofNat (c.toNat - 32) else c

/-- Python `bytes.upper()`: ASCII-only upper-casing. -/
def pyUpper (s : String) : String :=
  String.mk (s.data.map asciiUpperChar)

/-- ASCII whitespace, the class Python `bytes.strip()` and `\s` use. -/
def isPySpace (c : Char) : Bool :=
  c = ' ' ∨ c = '\t' ∨ c = '\n' ∨ c = '\x0d' ∨ c = '\x0b' ∨ c = '\x0c'

/-- Python `strip()`: remove leading and trailing ASCII whitespace. -/
def pyStrip (s : String) : String :=
  String.mk (((s.data.dropWhile isPySpace).reverse.dropWhile isPySpace).reverse)

/-- Python `startswith` / `endswith` and byte-count slicing, phrased on
the underlying byte list (structurally recursive, unlike the `String`
library versions). -/
def startsWithB (p s : String) : Bool := p.data.isPrefixOf s.data

def endsWithB (p s : String) : Bool := p.data.reverse.isPrefixOf s.data.reverse

/-- Python `s[0:n]`. -/
def strTake (n : Nat) (s : String) : String := String.mk (s.data.take n)

/-- Python `s[n:]`. -/
def strDrop (n : Nat) (s : String) : String := String.mk (s.data.drop n)

/-- `bytes.replace(b"\r\n", b"\r")`: collapse each `CR LF` pair to `CR`,
scanning left to right. -/
def crlfCollapse : List Char → List Char
  | [] => []
  | '\x0d' :: '\n' :: rest => '\x0d' :: crlfCollapse rest
  | c :: rest => c :: crlfCollapse rest

def pyReplaceCRLF (s : String) : String := String.mk (crlfCollapse s.data)

/-- Maximal non-whitespace runs of a character list (accumulator holds
the current run, reversed). -/
def wsFields : List Char → List Char → List String
  | [], acc => if acc = [] then [] else [String.mk acc.reverse]
  | c :: rest, acc =>
    if isPySpace c then
      if acc = [] then wsFields rest []
      else String.mk acc.reverse :: wsFields rest []
    else wsFields rest (c :: acc)

/-- `re.split(r'\s+', line)` applied to a line that has already been
stripped: the empty string yields `[""]` (one empty field, as `re.split`
does); otherwise the maximal non-whitespace runs. -/
def reSplitWS (s : String) : List String :=
  if s = "" then [""] else wsFields s.data []

/-- Python `int()` on a byte string: optional surrounding whitespace,
optional sign, then one or more decimal digits; anything else raises
`ValueError`. -/
def pyInt (s : String) : Except PyErr Int :=
  let t := pyStrip s
  let core : String := if startsWithB "-" t ∨ startsWithB "+" t then strDrop 1 t else t
  let sign : Int := if startsWithB "-" t then -1 else 1
  if core ≠ "" ∧ core.data.all Char.isDigit then
    .ok (sign * Int.ofNat (core.data.foldl (fun a c => a * 10 + (c.toNat - 48)) 0))
  else
    .error .valueError

/-! ### Constants (channel.py lines 18-51, monitor.py lines 9-20) -/

def MAX_PKTLEN : Nat := 254
def MAX_I_MSGS : Nat := 9
def MAX_MSGS : Nat := 10

def ST_DISC : Int := 0
def ST_SETUP : Int := 1
def ST_CONN : Int := 4

def MSG_I : Nat := 0
def MSG_S : Nat := 1
def MSG_MON_H : Nat := 4
def MSG_MON_HI : Nat := 5
def MSG_MON_I : Nat := 6

/-- A queued event: Python `[type, payload]` list. -/
abbrev Msg := Nat × String

/-! ### `_count_msgs` (channel.py lines 401-409; monitor.py lines 40-48)

`t = none` models the Python default `t = None` (count every message);
`t = some k` counts only messages whose kind equals `k`. -/

def count_msgs (t : Option Nat) (msgs : List Msg) : Nat :=
  match t with
  | none => msgs.length
  | some k => (msgs.filter (fun m => m.fst = k)).length

/-! ### `_get_msg` (channel.py lines 412-431; monitor.py lines 51-61)

The Python function returns `(None, None)` on an empty queue, pops and
returns the oldest message when unfiltered, and - on a filtered call with
no matching message in a non-empty queue - falls off the end of the
`for` loop, returning the bare `None` of an implicit Python return.
The three observable results are distinguished by `PollRes`. -/

inductive PollRes where
  /-- Python `(None, None)` -/
  | pairNone
  /-- Python returned the message `[type, payload]` -/
  | found (m : Msg)
  /-- Python implicit bare `None` (fell off the end of the function) -/
  | bareNone
  deriving Repr, DecidableEq

/-- The scan-and-pop loop of `Channel._get_msg` (lines 427-431): find the
first message of kind `k`, remove it, return it with the remaining list. -/
def scanPop (k : Nat) : List Msg → Option (Msg × List Msg)
  | [] => none
  | m :: rest =>
    if m.fst = k then some (m, rest)
    else (scanPop k rest).map (fun p => (p.fst, m :: p.snd))

/-- `Channel._get_msg` (channel.py lines 412-431). -/
def chan_get_msg (t : Option Nat) (msgs : List Msg) : PollRes × List Msg :=
  match msgs with
  | [] => (.pairNone, [])
  | m :: rest =>
    match t with
    | none => (.found m, rest)
    | some k =>
      match scanPop k (m :: rest) with
      | some (x, remaining) => (.found x, remaining)
      | none => (.bareNone, m :: rest)

/-- `Monitor._get_msg` (monitor.py lines 51-61): the `t` argument is
accepted but ignored ("TODO: can't select between msg types"). -/
def mon_get_msg (_t : Option Nat) (msgs : List Msg) : PollRes × List Msg :=
  match msgs with
  | [] => (.pairNone, [])
  | m :: rest => (.found m, rest)

/-! ### `Channel.L` (channel.py lines 459-471)

The third field is Python `int(len(self.buffer_tx) / MAX_PKTLEN + 0.5)`:
float division, add one half, truncate.  For the lengths a buffer can
reach the float result never strays across an integer boundary (the
boundary cases `len ≡ 127 (mod 254)` are exactly representable), so the
exact rational value `⌊(2·len + 254) / 508⌋` is the faithful model. -/

def lThirdField (txLen : Nat) : Nat := (2 * txLen + 254) / 508

/-! ### Channel state (channel.py `Channel.__init__`, lines 66-84)

The Python worker's function-local variables persist across loop
iterations of `run`; the ones whose values cross iterations are part of
the state: `n` (the last `send` result, unbound before the first send,
modelled as `Option Nat`) and the existence of the socket object `s`
(`sockLive`).  `dead` records that an uncaught exception terminated the
worker thread (no further ticks happen). -/

structure ChanState where
  channel : Nat
  status : Int
  buffer_tx : String
  msgs : List Msg
  station : Option String
  call : String
  seq : Nat
  nVar : Option Nat
  sockLive : Bool
  dead : Bool
  deriving Repr, DecidableEq

def initChan (ch : Nat) (mycall : String := "NOCALL") : ChanState :=
  { channel := ch, status := ST_DISC, buffer_tx := "", msgs := [],
    station := none, call := mycall, seq := 0, nVar := none,
    sockLive := false, dead := false }

/-- One call that `Channel._monitor` makes on `self.monitor.log`, with the
positional arguments it passes: `(mtype, composed message, frame type)`. -/
abbrev LogCall := Nat × String × String

/-- Python truthiness of the optional `i` argument of `_monitor`. -/
def iTruthy (i : Option String) : Bool :=
  match i with
  | none => false
  | some s => s ≠ ""

/-- The dispatch chain of `Channel._monitor` (channel.py lines 297-377):
given my call, the remote station, the current `seq` and the event name,
produce `some (mtype, msg, ftype, new seq)`, or `none` for an unknown
event (warning only).  Formatting `b"fm %s to %s ..." % (me, remote)`
with `remote = None` raises `TypeError` (`%b` needs a bytes-like
object). -/
def monEvtCore (me : String) (remote : Option String) (seq : Nat)
    (t : String) (hasI : Bool) :
    Except PyErr (Option (Nat × String × String × Nat)) :=
  let nxt := (seq + 1) % 8
  let withR (f : String → Nat × String × String × Nat) :
      Except PyErr (Option (Nat × String × String × Nat)) :=
    match remote with
    | none => .error .typeError
    | some r => .ok (some (f r))
  if t = "MySYN" then
    withR (fun r => (MSG_MON_H, "fm " ++ me ++ " to " ++ r ++ " ctl SABM+", "U", seq))
  else if t = "ItsSYNACK" then
    withR (fun r => (MSG_MON_H, "fm " ++ r ++ " to " ++ me ++ " ctl UA-", "U", seq))
  else if t = "MyFIN" then
    withR (fun r => (MSG_MON_H, "fm " ++ me ++ " to " ++ r ++ " ctl DISC+", "U", seq))
  else if t = "ItsFINACK" then
    withR (fun r => (MSG_MON_H, "fm " ++ r ++ " to " ++ me ++ " ctl UA-", "U", seq))
  else if t = "ItsFIN" then
    withR (fun r => (MSG_MON_H, "fm " ++ r ++ " to " ++ me ++ " ctl DISC+", "U", seq))
  else if t = "MyFINACK" then
    withR (fun r => (MSG_MON_H, "fm " ++ me ++ " to " ++ r ++ " ctl UA-", "U", seq))
  else if t = "ItsRST" then
    withR (fun r => (MSG_MON_H, "fm " ++ r ++ " to " ++ me ++ " ctl DM-", "U", seq))
  else if t = "MyRST" then
    withR (fun r => (MSG_MON_H, "fm " ++ me ++ " to " ++ r ++ " ctl DM-", "U", seq))
  else if t = "MyPSH" ∧ hasI then
    withR (fun r => (MSG_MON_HI,
      "fm " ++ me ++ " to " ++ r ++ " ctl I" ++ toString nxt ++ toString seq ++ " pid F0+",
      "I", seq))
  else if t = "ItsPSHACK" then
    withR (fun r => (MSG_MON_H, "fm " ++ r ++ " to " ++ me ++ " ctl RR" ++ toString nxt ++ "-", "S", nxt))
  else if t = "ItsPSH" ∧ hasI then
    withR (fun r => (MSG_MON_HI,
      "fm " ++ r ++ " to " ++ me ++ " ctl I" ++ toString nxt ++ toString seq ++ " pid F0+",
      "I", seq))
  else if t = "MyPSHACK" then
    withR (fun r => (MSG_MON_H, "fm " ++ me ++ " to " ++ r ++ " ctl RR" ++ toString nxt ++ "-", "S", nxt))
  else
    .ok none

/-- `Channel._monitor` (channel.py lines 297-383): update `seq`, and
return the calls made on `self.monitor.log` - the header call, plus a
`MSG_MON_I` call when `i` is truthy (with `CRLF` collapsed to `CR`). -/
def chanMonitor (st : ChanState) (t : String) (i : Option String := none) :
    Except PyErr (ChanState × List LogCall) :=
  match monEvtCore st.call st.station st.seq t (iTruthy i) with
  | .error e => .error e
  | .ok none => .ok (st, [])
  | .ok (some (mtype, msg, ftype, seq')) =>
    let head : LogCall := (mtype, msg, ftype)
    let tail : List LogCall :=
      match i with
      | some s => if s ≠ "" then [(MSG_MON_I, pyReplaceCRLF s, "I")] else []
      | none => []
    .ok ({ st with seq := seq' }, head :: tail)

/-! ### Station resolution (`Channel._station2ip`, channel.py lines 266-294)

The stations file is modelled by whether it could be opened (`openOk`)
and the list of lines Python's file iteration would yield.  The result
`(False, False)` of the Python code is `none`; a found station is
`some (host, port)`.  The strict three-name unpacking
`(ssid, host, port) = re.split(r'\s+', line)` raises `ValueError` for
any other field count, and `int(port)` raises `ValueError` for a
non-numeric port. -/

def station2ipGo (q : String) : List String → Except PyErr (Option (String × Int))
  | [] => .ok none
  | l :: rest =>
    let line := pyStrip l
    if startsWithB "#" line then station2ipGo q rest
    else
      match reSplitWS line with
      | [ssid, host, port] =>
        if ssid ≠ "" ∧ host ≠ "" ∧ port ≠ "" ∧ pyUpper ssid = q then
          match pyInt port with
          | .error e => .error e
          | .ok p => .ok (some (host, p))
        else station2ipGo q rest
      | _ => .error .valueError

def station2ip (openOk : Bool) (fileLines : List String) (stationArg : String) :
    Except PyErr (Option (String × Int)) :=
  let q := pyStrip (pyUpper stationArg)
  if openOk then station2ipGo q fileLines else .ok none

/-- Python truthiness of `all(ipaddr)` on the resolver result: the
`(False, False)` case is falsy, and a real pair is truthy only when both
the host string is non-empty and the port is non-zero. -/
def ipTruthy (r : Option (String × Int)) : Bool :=
  match r with
  | none => false
  | some (h, p) => h ≠ "" ∧ p ≠ 0

/-- `known_stations` (TNC/__main__.py lines 88-113): counts lines that
unpack as `(ssid, host, port, *extra)`, i.e. have at least three fields;
malformed lines only produce a warning.  Returns `none` (Python `None`)
when the file cannot be opened. -/
def knownStations (openOk : Bool) (fileLines : List String) : Option Nat :=
  if openOk then
    some ((fileLines.filter (fun l =>
      let line := pyStrip l
      line ≠ "" ∧ ¬ startsWithB "#" line ∧ 3 ≤ (reSplitWS line).length)).length)
  else none

/-! ### The worker tick (one iteration of `Channel.run`, channel.py lines 92-250)

Socket behaviour is environment input.  `errname1` is
`errno.errorcode[s.connect_ex(ipaddr)]` in the DISC branch, `soErr` the
`SO_ERROR` value in SETUP, `errname2` the second `connect_ex` name when
`soErr = 0`, `errname3` is `errno.errorcode[soErr]` otherwise. -/

inductive SendRes where
  | sent (n : Nat)
  | reset
  deriving Repr, DecidableEq

inductive RecvRes where
  | recvData (d : String)
  | wouldBlock
  | reset
  deriving Repr, DecidableEq

structure TickEnv where
  openOk : Bool := true
  staLines : List String := []
  errname1 : String := "EINPROGRESS"
  soErr : Nat := 0
  errname2 : String := "WSAEINVAL"
  errname3 : String := ""
  sendRes : SendRes := .sent 0
  recvRes : RecvRes := .wouldBlock
  deriving Repr

/-- Intermediate result of one branch of the tick: state so far, monitor
calls made so far, and the exception that aborted the iteration, if any. -/
abbrev TickStep := ChanState × List LogCall × Option PyErr

/-- Format `b"... %s ..." % self.station`: raises `TypeError` when the
station is `None`. -/
def fmtSta (station : Option String) (pre post : String) : Except PyErr String :=
  match station with
  | none => .error .typeError
  | some r => .ok (pre ++ r ++ post)

/-- DISC branch (channel.py lines 95-128). -/
def tickDisc (st : ChanState) (env : TickEnv) : TickStep :=
  match st.station with
  | none => (st, [], none)
  | some sta =>
    match station2ip env.openOk env.staLines sta with
    | .error e => (st, [], some e)
    | .ok ipaddr =>
      if ¬ ipTruthy ipaddr then
        ({ st with
            msgs := st.msgs ++ [(MSG_S, "LINK FAILURE with " ++ sta ++ ": Unknown station")],
            station := none }, [], none)
      else
        -- socket created and connect attempted (lines 110-116)
        let st1 := { st with sockLive := true }
        match chanMonitor st1 "MySYN" with
        | .error e => (st1, [], some e)
        | .ok (st2, cs) =>
          if env.errname1 = "WSAEWOULDBLOCK" ∨ env.errname1 = "EINPROGRESS" then
            ({ st2 with status := ST_SETUP }, cs, none)
          else
            let st3 := { st2 with
              msgs := st2.msgs ++ [(MSG_S, "LINK FAILURE with " ++ sta ++ ": See terminal output")] }
            match chanMonitor st3 "ItsRST" with
            | .error e => (st3, cs, some e)
            | .ok (st4, cs2) => ({ st4 with station := none }, cs ++ cs2, none)

/-- SETUP branch (channel.py lines 132-179). -/
def tickSetup (st : ChanState) (env : TickEnv) : TickStep :=
  if env.soErr = 0 then
    -- still trying, or already connected (lines 137-151)
    if env.errname2 = "WSAEINVAL" then
      (st, [], none)  -- `self.status == ST_SETUP`: a no-op comparison in the source
    else if env.errname2 = "WSAEISCONN" then
      let st1 := { st with status := ST_CONN }
      match fmtSta st1.station "CONNECTED to " " via Internet" with
      | .error e => (st1, [], some e)
      | .ok m =>
        let st2 := { st1 with msgs := st1.msgs ++ [(MSG_S, m)] }
        match chanMonitor st2 "ItsSYNACK" with
        | .error e => (st2, [], some e)
        | .ok (st3, cs) => (st3, cs, none)
    else
      (st, [], none)
  else
    -- connection attempt failed (lines 154-179)
    if env.errname3 = "WSAECONNREFUSED" then
      match fmtSta st.station "BUSY fm " "" with
      | .error e => (st, [], some e)
      | .ok m =>
        let st1 := { st with msgs := st.msgs ++ [(MSG_S, m)] }
        match chanMonitor st1 "ItsRST" with
        | .error e => (st1, [], some e)
        | .ok (st2, cs) => ({ st2 with station := none }, cs, none)
    else if env.errname3 = "WSAETIMEDOUT" then
      match chanMonitor st "MyRST" with
      | .error e => (st, [], some e)
      | .ok (st1, cs) =>
        match fmtSta st1.station "LINK FAILURE with " "" with
        | .error e => (st1, cs, some e)
        | .ok m =>
          ({ st1 with msgs := st1.msgs ++ [(MSG_S, m)], station := none }, cs, none)
    else
      match chanMonitor st "ItsRST" with
      | .error e => (st, [], some e)
      | .ok (st1, cs) =>
        match fmtSta st1.station "LINK FAILURE with " "" with
        | .error e => (st1, cs, some e)
        | .ok m =>
          ({ st1 with msgs := st1.msgs ++ [(MSG_S, m)], station := none }, cs, none)

/-- The `try: s.send(...)` part of the CONN TX section
(channel.py lines 187-196). -/
def connSendTry (st : ChanState) (env : TickEnv) : TickStep :=
  match env.sendRes with
  | .sent n =>
    let st1 := { st with nVar := some n }
    match chanMonitor st1 "MyPSH" (some (strTake MAX_PKTLEN st1.buffer_tx)) with
    | .error e => (st1, [], some e)
    | .ok (st2, cs) => (st2, cs, none)
  | .reset =>
    match fmtSta st.station "LINK RESET fm " "" with
    | .error e => (st, [], some e)
    | .ok m =>
      let st1 := { st with msgs := st.msgs ++ [(MSG_S, m)] }
      match chanMonitor st1 "ItsRST" with
      | .error e => (st1, [], some e)
      | .ok (st2, cs) => ({ st2 with station := none }, cs, none)

/-- The `if n > 0:` block following the try (channel.py lines 198-200):
`NameError` when the local `n` was never bound. -/
def connSendAck (step : TickStep) : TickStep :=
  match step with
  | (st1, cs, some e) => (st1, cs, some e)
  | (st1, cs, none) =>
    match st1.nVar with
    | none => (st1, cs, some .nameError)
    | some n =>
      if 0 < n then
        let st2 := { st1 with buffer_tx := strDrop n st1.buffer_tx }
        match chanMonitor st2 "ItsPSHACK" with
        | .error e => (st2, cs, some e)
        | .ok (st3, cs2) => (st3, cs ++ cs2, none)
      else (st1, cs, none)

/-- TX part of the CONN branch (channel.py lines 186-200). -/
def connSend (st : ChanState) (env : TickEnv) : TickStep :=
  if st.buffer_tx = "" then (st, [], none)
  else connSendAck (connSendTry st env)

/-- RX part of the CONN branch, inside the backpressure gate
(channel.py lines 204-239). -/
def connRecv (st : ChanState) (env : TickEnv) : TickStep :=
  match env.recvRes with
  | .recvData d =>
    if d = "" then
      -- peer closed the socket (lines 209-216)
      match fmtSta st.station "DISCONNECTED fm " "" with
      | .error e => (st, [], some e)
      | .ok m =>
        let st1 := { st with msgs := st.msgs ++ [(MSG_S, m)] }
        match chanMonitor st1 "ItsFIN" with
        | .error e => (st1, [], some e)
        | .ok (st2, cs) =>
          match chanMonitor st2 "MyFINACK" with
          | .error e => (st2, cs, some e)
          | .ok (st3, cs2) => ({ st3 with station := none }, cs ++ cs2, none)
    else if startsWithB "\xff" d then
      -- Telnet negotiation reply (lines 221-222): socket-only effect
      (st, [], none)
    else
      let st1 := { st with msgs := st.msgs ++ [(MSG_I, d)] }
      match chanMonitor st1 "ItsPSH" (some d) with
      | .error e => (st1, [], some e)
      | .ok (st2, cs) =>
        match chanMonitor st2 "MyPSHACK" with
        | .error e => (st2, cs, some e)
        | .ok (st3, cs2) => (st3, cs ++ cs2, none)
  | .wouldBlock => (st, [], none)
  | .reset =>
    match fmtSta st.station "LINK RESET fm " "" with
    | .error e => (st, [], some e)
    | .ok m =>
      let st1 := { st with msgs := st.msgs ++ [(MSG_S, m)] }
      match chanMonitor st1 "ItsRST" with
      | .error e => (st1, [], some e)
      | .ok (st2, cs) => ({ st2 with station := none }, cs, none)

/-- CONN branch (channel.py lines 183-239): TX, then RX gated by the
INFO backpressure bound.  The fourth component records whether a socket
read was attempted this tick. -/
def tickConn (st : ChanState) (env : TickEnv) : TickStep × Bool :=
  match connSend st env with
  | (st1, cs, some e) => ((st1, cs, some e), false)
  | (st1, cs, none) =>
    if count_msgs (some MSG_I) st1.msgs < MAX_I_MSGS then
      match connRecv st1 env with
      | (st2, cs2, err) => ((st2, cs ++ cs2, err), true)
    else ((st1, cs, none), false)

/-- Outcome of one worker tick. -/
structure TickOut where
  st : ChanState
  calls : List LogCall
  err : Option PyErr
  didRecv : Bool
  deriving Repr

/-- One full iteration of `Channel.run` (channel.py lines 92-250):
branch on the status, then the final `if not self.station` block that
forces DISC and closes the socket.  An uncaught exception skips the
final block and permanently stops the worker (`dead`). -/
def tickBranch (st : ChanState) (env : TickEnv) : TickStep × Bool :=
  if st.status = ST_DISC then (tickDisc st env, false)
  else if st.status = ST_SETUP then (tickSetup st env, false)
  else if st.status = ST_CONN then tickConn st env
  else ((st, [], none), false)

def tick (st : ChanState) (env : TickEnv) : TickOut :=
  match tickBranch st env with
  | ((st1, cs, some e), didRecv) =>
    { st := { st1 with dead := true }, calls := cs, err := some e, didRecv := didRecv }
  | ((st1, cs, none), didRecv) =>
    if st1.station = none then
      { st := { st1 with status := ST_DISC, sockLive := false }, calls := cs,
        err := none, didRecv := didRecv }
    else
      { st := st1, calls := cs, err := none, didRecv := didRecv }

/-! ### Channel methods called from the host-link thread
(channel.py lines 386-492) -/

/-- `Channel.C` setter (lines 434-442), reached with a truthy argument. -/
def chanCSet (st : ChanState) (sta : String) : ChanState :=
  { st with station := some (pyUpper sta) }

/-- `Channel.C` getter: returns `self.station`. -/
def chanCGet (st : ChanState) : Option String := st.station

/-- `Channel.D` (lines 445-456).  When not disconnected: two monitor
events, one status message, clear the station.  `_monitor` raises
`TypeError` when the station is already `None`. -/
def chanD (st : ChanState) : Except PyErr (ChanState × List LogCall) :=
  if st.status ≠ ST_DISC then
    match chanMonitor st "MyFIN" with
    | .error e => .error e
    | .ok (st1, cs) =>
      match chanMonitor st1 "ItsFINACK" with
      | .error e => .error e
      | .ok (st2, cs2) =>
        match fmtSta st2.station "DISCONNECTED fm " "" with
        | .error e => .error e
        | .ok m =>
          .ok ({ st2 with msgs := st2.msgs ++ [(MSG_S, m)], station := none },
               cs ++ cs2)
  else .ok (st, [])

/-- The state after a `D` command, also when it raised (an exception in
`chanD` occurs before any field is written). -/
def chanDState (st : ChanState) : ChanState :=
  match chanD st with
  | .ok (st', _) => st'
  | .error _ => st

/-- `Channel.tx` (lines 386-398): append, adding `LF` after a trailing
bare `CR`. -/
def chanTx (st : ChanState) (data : String) : ChanState :=
  let d := if endsWithB "\x0d" data then data ++ "\n" else data
  { st with buffer_tx := st.buffer_tx ++ d }

/-- `Channel.G` (lines 474-482): poll via `_get_msg`. -/
def chanG (t : Option Nat) (st : ChanState) : PollRes × ChanState :=
  let r := chan_get_msg t st.msgs
  (r.fst, { st with msgs := r.snd })

/-- `Channel.L` (lines 459-471): six decimal fields separated by spaces. -/
def chanL (st : ChanState) : String :=
  toString (count_msgs (some MSG_S) st.msgs) ++ " " ++
  toString (count_msgs (some MSG_I) st.msgs) ++ " " ++
  toString (lThirdField st.buffer_tx.length) ++ " 0 0 " ++
  toString st.status

/-- `Channel.I` setter (lines 485-492), reached with a truthy argument. -/
def chanISet (st : ChanState) (c : String) : ChanState := { st with call := c }

/-! ### Monitor channel (monitor.py) -/

structure MonState where
  msgs : List Msg
  call : String
  mfilter : String
  station : String
  deriving Repr, DecidableEq

def initMon : MonState :=
  { msgs := [], call := "NOCALL", mfilter := "N", station := "NOCALL" }

/-- The dynamically-typed first argument of `Monitor.log`: monitor.py
documents a control-code string, while channel.py passes the integer
message type of its older interface. -/
inductive CtlArg where
  | str (s : String)
  | int (n : Nat)
  deriving Repr, DecidableEq

/-- Contiguous-sublist test, executable. -/
def infixOfB (needle : List Char) : List Char → Bool
  | [] => needle.isPrefixOf []
  | c :: rest => needle.isPrefixOf (c :: rest) || infixOfB needle rest

/-- `b"U" in self.mfilter`: byte-substring containment. -/
def inFilter (needle hay : String) : Bool :=
  infixOfB needle.data hay.data

/-- `Monitor.log` (monitor.py lines 124-179).  The `else` branch of the
dispatch chain only warns, leaving `uisc` and `msg` unbound, so the
following `if uisc not in self.mfilter` raises `NameError`.  `RR` and
`I` format `%d` from `nxt`/`seq` (`TypeError` on `None`), and the `I`
append path calls `i.replace` (`AttributeError` on `None`). -/
def monLogCompose (ctl : CtlArg) (src dst : String)
    (seq nxt : Option Nat) : Except PyErr (String × String) :=
  match ctl with
  | .str "SABM" => .ok ("U", "fm " ++ src ++ " to " ++ dst ++ " ctl SABM+")
  | .str "DISC" => .ok ("U", "fm " ++ src ++ " to " ++ dst ++ " ctl DISC+")
  | .str "UA" => .ok ("U", "fm " ++ src ++ " to " ++ dst ++ " ctl UA-")
  | .str "DM" => .ok ("U", "fm " ++ src ++ " to " ++ dst ++ " ctl DM-")
  | .str "RR" =>
    match nxt with
    | none => .error .typeError
    | some nx => .ok ("S", "fm " ++ src ++ " to " ++ dst ++ " ctl RR" ++ toString nx ++ "-")
  | .str "I" =>
    match nxt, seq with
    | some nx, some sq =>
      .ok ("I", "fm " ++ src ++ " to " ++ dst ++ " ctl I" ++ toString nx ++ toString sq ++ " pid F0+")
    | _, _ => .error .typeError
  | _ => .error .nameError  -- warning, then `uisc` is unbound

def monLog (st : MonState) (ctl : CtlArg) (src dst : String)
    (seq : Option Nat := none) (nxt : Option Nat := none)
    (i : Option String := none) : Except PyErr MonState :=
  match monLogCompose ctl src dst seq nxt with
  | .error e => .error e
  | .ok (uisc, msg) =>
    if ¬ inFilter uisc st.mfilter then .ok st
    else if uisc = "I" ∧ MAX_MSGS ≤ st.msgs.length then .ok st
    else if ctl = .str "I" then
      match i with
      | none => .error .attributeError
      | some inf =>
        .ok { st with msgs := st.msgs ++
          [(MSG_MON_HI, msg), (MSG_MON_I, pyReplaceCRLF inf)] }
    else
      .ok { st with msgs := st.msgs ++ [(MSG_MON_H, msg)] }

/-- `Monitor.C` setter (monitor.py lines 64-72), reached with a truthy
argument. -/
def monCSet (st : MonState) (sta : String) : MonState :=
  { st with station := pyUpper sta }

/-- `Monitor.M` setter (monitor.py lines 114-121). -/
def monMSet (st : MonState) (f : String) : MonState :=
  { st with mfilter := pyUpper f }

/-- `Monitor.L` (monitor.py lines 82-90): `b"%d %d" % (0, count)`. -/
def monL (st : MonState) : String :=
  "0 " ++ toString (count_msgs none st.msgs)

/-- `Monitor.G` (monitor.py lines 93-101). -/
def monG (t : Option Nat) (st : MonState) : PollRes × MonState :=
  let r := mon_get_msg t st.msgs
  (r.fst, { st with msgs := r.snd })

/-! ### TNC engine (tnc.py) -/

def MODE_TERM : Nat := 0
def MODE_HOST : Nat := 1

def COND_OK : Nat := 0
def COND_OKMSG : Nat := 1
def COND_ERRMSG : Nat := 2
def COND_LNK : Nat := 3
def COND_MON : Nat := 4
def COND_MONHDR : Nat := 5
def COND_MONINF : Nat := 6
def COND_CONINFO : Nat := 7

/-- Engine state: mode, configured channel count, monitor (slot 0) and
the connection channels (slots 1..N, stored here 0-based). -/
structure TNCState where
  mode : Nat
  maxConn : Nat
  mon : MonState
  chans : List ChanState
  deriving Repr, DecidableEq

def initTNC (n : Nat) (hostmode : Bool := false) (mycall : String := "NOCALL") :
    TNCState :=
  { mode := if hostmode then MODE_HOST else MODE_TERM, maxConn := n,
    mon := initMon,
    chans := (List.range n).map (fun i => initChan (i + 1) mycall) }

/-- `TNC.host_response` (tnc.py lines 201-236): the bytes written to the
host stream for one response.  The byte-count formats (6 and 7) write
`len(msg) - 1`; they are only reached with non-empty `msg` (an empty
message is routed to `COND_OK` by the `G` handler). -/
def hostResponse (ch cond : Nat) (msg : String := "") : String :=
  if cond = COND_OK then
    String.mk [Char.ofNat ch, Char.ofNat cond]
  else if cond = COND_ERRMSG ∨ cond = COND_OKMSG then
    String.mk [Char.ofNat ch, Char.ofNat cond] ++ msg ++ "\x00"
  else if cond = COND_LNK then
    String.mk [Char.ofNat ch, Char.ofNat cond] ++ "(" ++ toString ch ++ ") " ++ msg ++ "\x00"
  else if cond = COND_CONINFO then
    String.mk [Char.ofNat ch, Char.ofNat cond, Char.ofNat (msg.length - 1)] ++ msg
  else if cond = COND_MON then
    String.mk [Char.ofNat ch, Char.ofNat cond] ++ msg ++ "\x00"
  else if cond = COND_MONHDR then
    String.mk [Char.ofNat ch, Char.ofNat cond] ++ msg ++ "\x00"
  else if cond = COND_MONINF then
    String.mk [Char.ofNat ch, Char.ofNat cond, Char.ofNat (msg.length - 1)] ++ msg
  else ""

/-- `self.channels[ch]` for `ch ≥ 1`: out-of-range raises `IndexError`. -/
def getCh (st : TNCState) (ch : Nat) : Except PyErr ChanState :=
  match st.chans.get? (ch - 1) with
  | none => .error .indexError
  | some c => .ok c

def setCh (st : TNCState) (ch : Nat) (c : ChanState) : TNCState :=
  { st with chans := st.chans.set (ch - 1) c }

/-- Poll `self.channels[ch].G(t)` inside `host_cmd`. -/
def tncPoll (st : TNCState) (ch : Nat) (t : Option Nat) :
    Except PyErr (PollRes × TNCState) :=
  if ch = 0 then
    let r := monG t st.mon
    .ok (r.fst, { st with mon := r.snd })
  else
    match getCh st ch with
    | .error e => .error e
    | .ok cs =>
      let r := chanG t cs
      .ok (r.fst, setCh st ch r.snd)

/-- `TNC.host_cmd` (tnc.py lines 239-355): execute one host-mode command
and return the new engine state together with the bytes written to the
host stream.  The `(t, msg) = ...G(...)` unpacking of a bare `None`
raises `TypeError`; `int(args)` in the `Y` handler raises `ValueError`
on a non-numeric argument; `D` can propagate `TypeError` out of
`Channel.D`. -/
def hostCmd (st : TNCState) (ch : Nat) (cmd : String) :
    Except PyErr (TNCState × String) :=
  let c := strTake 1 cmd
  let args := pyStrip (strDrop 1 cmd)
  if st.maxConn < ch then
    .ok (st, hostResponse ch COND_ERRMSG "INVALID CHANNEL NUMBER")
  else if c = "G" then
    let t : Option Nat := if args = "0" then some MSG_I
                          else if args = "1" then some MSG_S else none
    match tncPoll st ch t with
    | .error e => .error e
    | .ok (r, st') =>
      match r with
      | .pairNone => .ok (st', hostResponse ch COND_OK)
      | .bareNone => .error .typeError
      | .found (ty, m) =>
        if m = "" then .ok (st', hostResponse ch COND_OK)
        else if ty = MSG_S then .ok (st', hostResponse ch COND_LNK m)
        else if ty = MSG_I then .ok (st', hostResponse ch COND_CONINFO m)
        else if ty = MSG_MON_H then .ok (st', hostResponse ch COND_MON m)
        else if ty = MSG_MON_HI then .ok (st', hostResponse ch COND_MONHDR m)
        else if ty = MSG_MON_I then .ok (st', hostResponse ch COND_MONINF m)
        else .ok (st', "")
  else if c = "C" then
    if args = "" then
      if ch = 0 then
        .ok (st, hostResponse ch COND_OKMSG st.mon.station)
      else
        match getCh st ch with
        | .error e => .error e
        | .ok cs =>
          match chanCGet cs with
          | none => .ok (st, hostResponse ch COND_ERRMSG "CHANNEL NOT CONNECTED")
          | some a => .ok (st, hostResponse ch COND_OKMSG a)
    else
      if ch = 0 then
        .ok ({ st with mon := monCSet st.mon args }, hostResponse ch COND_OK)
      else
        match getCh st ch with
        | .error e => .error e
        | .ok cs => .ok (setCh st ch (chanCSet cs args), hostResponse ch COND_OK)
  else if c = "I" then
    if args = "" then
      if ch = 0 then .ok (st, hostResponse ch COND_OKMSG st.mon.call)
      else
        match getCh st ch with
        | .error e => .error e
        | .ok cs => .ok (st, hostResponse ch COND_OKMSG cs.call)
    else
      if ch = 0 then
        .ok ({ st with mon := { st.mon with call := args } }, hostResponse ch COND_OK)
      else
        match getCh st ch with
        | .error e => .error e
        | .ok cs => .ok (setCh st ch (chanISet cs args), hostResponse ch COND_OK)
  else if c = "M" then
    if args = "" then .ok (st, hostResponse ch COND_OKMSG st.mon.mfilter)
    else .ok ({ st with mon := monMSet st.mon args }, hostResponse ch COND_OK)
  else if c = "Y" then
    if args = "" then .ok (st, hostResponse ch COND_OKMSG (toString st.maxConn))
    else
      match pyInt args with
      | .error e => .error e
      | .ok n =>
        if n ≤ (st.maxConn : Int) then .ok (st, hostResponse ch COND_OK)
        else
          .ok (st, hostResponse ch COND_ERRMSG
            ("INVALID COMMAND: TNC started with " ++ toString st.maxConn ++ " channels."))
  else if c = "L" then
    if ch = 0 then .ok (st, hostResponse ch COND_OKMSG (monL st.mon))
    else
      match getCh st ch with
      | .error e => .error e
      | .ok cs => .ok (st, hostResponse ch COND_OKMSG (chanL cs))
  else if c = "D" then
    if ch = 0 then .ok (st, hostResponse ch COND_OK)
    else
      match getCh st ch with
      | .error e => .error e
      | .ok cs =>
        match chanD cs with
        | .error e => .error e
        | .ok (cs', _) => .ok (setCh st ch cs', hostResponse ch COND_OK)
  else if c = "J" then
    if args = "HOST0" then
      .ok ({ st with mode := MODE_TERM }, hostResponse ch COND_OK ++ "ok" ++ "\x0d\n")
    else .ok (st, hostResponse ch COND_OK)
  else if c = "U" ∨ c = "K" ∨ c = "Z" then
    .ok (st, hostResponse ch COND_OK)
  else if c = "@" then
    if startsWithB "B" args then .ok (st, hostResponse ch COND_OKMSG "512")
    else .ok (st, hostResponse ch COND_OK)
  else if c = "H" then
    .ok (st, hostResponse ch COND_OK)
  else
    .ok (st, hostResponse ch COND_ERRMSG ("INVALID COMMAND: " ++ c))

/-- `TNC.host_data` (tnc.py lines 358-363): `self.channels[ch].tx(data)`
with no channel-number check.  Channel 0 is the Monitor, which has no
`tx` method (`AttributeError`); a channel id beyond the list raises
`IndexError`. -/
def hostData (st : TNCState) (ch : Nat) (data : String) :
    Except PyErr (TNCState × String) :=
  if ch = 0 then .error .attributeError
  else
    match st.chans.get? (ch - 1) with
    | none => .error .indexError
    | some cs => .ok (setCh st ch (chanTx cs data), hostResponse ch COND_OK)

/-! ### Terminal mode (tnc.py lines 120-186) -/

/-- `TNC.term_read` (tnc.py lines 153-186): accumulate bytes; `ESC`
clears the buffer and marks a command, `CAN` clears the buffer, `CR`
returns `(is_command, buffer)`; end of input raises ClosedPipe. -/
def termRead : List Char → Nat → String → Except PyErr ((Nat × String) × List Char)
  | [], _, _ => .error .closedPipe
  | c :: rest, isCmd, buf =>
    if c = '\x1b' then termRead rest 1 ""
    else if c = '\x18' then termRead rest isCmd ""
    else if c = '\x0d' then .ok ((isCmd, buf), rest)
    else termRead rest isCmd (buf.push c)

/-- `TNC.term_response` (tnc.py lines 128-134): message plus CR LF. -/
def termResponse (msg : String) : String := msg ++ "\x0d\n"

/-- `TNC.term_cmd` (tnc.py lines 137-150). -/
def termCmd (st : TNCState) (cmd : String) : TNCState × String :=
  if cmd = "JHOST1" then ({ st with mode := MODE_HOST }, "")
  else (st, termResponse ("INVALID COMMAND: " ++ cmd))

/-- One iteration of `TNC.run` in terminal mode (tnc.py lines 408-412):
read a line; a command line is upper-cased and dispatched, anything else
is dropped.  Returns the new state, the bytes written, and the unread
input. -/
def termStep (st : TNCState) (input : List Char) :
    Except PyErr (TNCState × String × List Char) :=
  match termRead input 0 "" with
  | .error e => .error e
  | .ok ((isCmd, buf), rest) =>
    if isCmd ≠ 0 then
      let r := termCmd st (pyUpper buf)
      .ok (r.fst, r.snd, rest)
    else .ok (st, "", rest)

/-! ## Helper lemmas -/

theorem count_msgs_append (t : Nat) (l1 l2 : List Msg) :
    count_msgs (some t) (l1 ++ l2) = count_msgs (some t) l1 + count_msgs (some t) l2 := by
  simp [count_msgs, List.filter_append]

theorem count_msgs_single (t j : Nat) (m : String) :
    count_msgs (some t) [(j, m)] = if j = t then 1 else 0 := by
  by_cases h : j = t <;> simp [count_msgs, List.filter, h]

/-- The scan of `Channel._get_msg` removes the first message whose kind
matches, leaving the others in order. -/
theorem scanPop_first (k : Nat) (pre post : List Msg) (m : Msg)
    (hpre : ∀ x ∈ pre, x.fst ≠ k) (hm : m.fst = k) :
    scanPop k (pre ++ m :: post) = some (m, pre ++ post) := by
  induction pre with
  | nil => simp [scanPop, hm]
  | cons a l ih =>
    have ha : a.fst ≠ k := hpre a (List.mem_cons_self a l)
    have ih' := ih (fun x hx => hpre x (List.mem_cons_of_mem a hx))
    simp [scanPop, ha, ih']

/-- When no message matches, the scan returns `none`. -/
theorem scanPop_none (k : Nat) (msgs : List Msg)
    (h : ∀ x ∈ msgs, x.fst ≠ k) : scanPop k msgs = none := by
  induction msgs with
  | nil => rfl
  | cons a l ih =>
    have ha : a.fst ≠ k := h a (List.mem_cons_self a l)
    have ih' := ih (fun x hx => h x (List.mem_cons_of_mem a hx))
    simp [scanPop, ha, ih']

theorem count_msgs_cons (t : Nat) (x : Msg) (l : List Msg) :
    count_msgs (some t) (x :: l) =
      (if x.fst = t then 1 else 0) + count_msgs (some t) l := by
  by_cases h : x.fst = t <;> simp [count_msgs, List.filter_cons, h] <;> omega

/-- A successful scan splits the queue around the removed message. -/
theorem scanPop_decomp (k : Nat) (msgs : List Msg) (m : Msg) (rest : List Msg)
    (h : scanPop k msgs = some (m, rest)) :
    ∃ pre post, msgs = pre ++ m :: post ∧ rest = pre ++ post := by
  induction msgs generalizing rest with
  | nil => simp [scanPop] at h
  | cons a l ih =>
    by_cases ha : a.fst = k
    · rw [scanPop, if_pos ha] at h
      have h2 : (a, l) = (m, rest) := Option.some.inj h
      have h3 : a = m := congrArg Prod.fst h2
      have h4 : l = rest := congrArg Prod.snd h2
      exact ⟨[], l, by rw [h3]; rfl, by rw [h4]; rfl⟩
    · rw [scanPop, if_neg ha] at h
      cases h' : scanPop k l with
      | none => rw [h'] at h; simp at h
      | some p =>
        obtain ⟨x, r⟩ := p
        rw [h'] at h
        simp only [Option.map_some'] at h
        have h2 : (x, a :: r) = (m, rest) := Option.some.inj h
        have h3 : x = m := congrArg Prod.fst h2
        have h4 : a :: r = rest := congrArg Prod.snd h2
        subst h3
        obtain ⟨pre, post, hl, hr⟩ := ih r h'
        refine ⟨a :: pre, post, by rw [hl]; rfl, ?_⟩
        rw [← h4, hr]
        rfl

/-- A successful scan removes one message, so no kind count grows. -/
theorem scanPop_count (k j : Nat) (msgs : List Msg) (m : Msg) (rest : List Msg)
    (h : scanPop k msgs = some (m, rest)) :
    count_msgs (some j) rest ≤ count_msgs (some j) msgs := by
  obtain ⟨pre, post, h1, h2⟩ := scanPop_decomp k msgs m rest h
  subst h1
  subst h2
  rw [count_msgs_append, count_msgs_append, count_msgs_cons]
  omega

set_option maxRecDepth 16384

/-! ## Claims -/

/-- C1: For every channel and every queue state, an unfiltered poll
removes and returns the oldest event, and a filtered poll removes and
returns the oldest event of kind `t`, leaving the relative order of the
remaining events intact, returning `(NONE, NONE)` when the queue holds
no event of kind `t`.  AMENDED after the counterexample: on a
connection channel a filtered poll of a non-empty queue with no
matching event returns a bare `None` (not the pair `(None, None)`,
which is returned only on an empty queue), and the monitor channel
ignores the filter entirely, always popping the oldest event. -/
theorem C1_poll_semantics_amended :
    (∀ t : Option Nat, chan_get_msg t [] = (.pairNone, [])) ∧
    (∀ (m : Msg) (rest : List Msg), chan_get_msg none (m :: rest) = (.found m, rest)) ∧
    (∀ (k : Nat) (pre post : List Msg) (m : Msg),
      (∀ x ∈ pre, x.fst ≠ k) → m.fst = k →
      chan_get_msg (some k) (pre ++ m :: post) = (.found m, pre ++ post)) ∧
    (∀ (k : Nat) (msgs : List Msg), msgs ≠ [] → (∀ x ∈ msgs, x.fst ≠ k) →
      chan_get_msg (some k) msgs = (.bareNone, msgs)) ∧
    (∀ (t : Option Nat) (m : Msg) (rest : List Msg),
      mon_get_msg t (m :: rest) = (.found m, rest) ∧
      mon_get_msg t [] = (.pairNone, [])) := by
  refine ⟨fun t => by cases t <;> rfl, fun m rest => rfl, ?_, ?_, fun t m rest => ⟨rfl, rfl⟩⟩
  · intro k pre post m hpre hm
    have hs := scanPop_first k pre post m hpre hm
    cases hp : pre ++ m :: post with
    | nil => simp at hp
    | cons a l =>
      rw [hp] at hs
      simp [chan_get_msg, hs]
  · intro k msgs hne h
    cases msgs with
    | nil => exact absurd rfl hne
    | cons a l =>
      have hs := scanPop_none k (a :: l) h
      simp [chan_get_msg, hs]

/-- Witness for C1: concrete filtered poll removing the oldest
status message while keeping order, and a no-match filtered poll
leaving the queue intact. -/
theorem C1_poll_semantics_witness :
    chan_get_msg (some 1) [(0, "d"), (1, "s"), (1, "s2")] =
      (.found (1, "s"), [(0, "d"), (1, "s2")]) ∧
    chan_get_msg (some 0) [(1, "s")] = (.bareNone, [(1, "s")]) := by
  constructor
  · exact C1_poll_semantics_amended.2.2.1 1 [(0, "d")] [(1, "s2")] (1, "s")
      (by decide) rfl
  · exact C1_poll_semantics_amended.2.2.2.1 0 [(1, "s")] (by decide) (by decide)

/-- C1 counterexample: on a connection channel whose queue holds one
link-status event, a poll filtered for INFO returns the bare `None` of
the Python fall-through, not `(None, None)` as the claim states. -/
theorem C1_filtered_poll_counterexample :
    chan_get_msg (some MSG_I) [(MSG_S, "x")] = (.bareNone, [(MSG_S, "x")]) ∧
    PollRes.bareNone ≠ PollRes.pairNone := by
  exact ⟨by decide, by decide⟩

/-- C6: the `L` command's third field.  AMENDED after the
counterexample: the field is `int(len/254 + 0.5)` - round half up, i.e.
`(len + 127) / 254` - not the ceiling: it is 0 for `len ≤ 126` and 1
exactly for `127 ≤ len ≤ 380`; on a freshly constructed channel the
result is `"0 0 0 0 0 0"`. -/
theorem C6_link_status_amended :
    (∀ st : ChanState, chanL st =
      toString (count_msgs (some MSG_S) st.msgs) ++ " " ++
      toString (count_msgs (some MSG_I) st.msgs) ++ " " ++
      toString ((st.buffer_tx.length + 127) / 254) ++ " 0 0 " ++
      toString st.status) ∧
    (∀ n : Nat, 127 ≤ n → n ≤ 380 → lThirdField n = 1) ∧
    (∀ n : Nat, n ≤ 126 → lThirdField n = 0) ∧
    chanL (initChan 1) = "0 0 0 0 0 0" := by
  have key : ∀ n : Nat, lThirdField n = (n + 127) / 254 := by
    intro n
    unfold lThirdField
    omega
  refine ⟨fun st => ?_, fun n h1 h2 => ?_, fun n h => ?_, by decide⟩
  · unfold chanL
    rw [key]
  · rw [key]; omega
  · rw [key]; omega

/-- Witness for C6: buffer lengths 127 and 126 hit the two amended
ranges, and the fresh channel yields the all-zero sextet. -/
theorem C6_link_status_witness :
    chanL { initChan 1 with buffer_tx := String.mk (List.replicate 127 'a') } =
      "0 0 1 0 0 0" ∧
    lThirdField 126 = 0 := by
  constructor
  · rw [C6_link_status_amended.1]
    decide
  · exact C6_link_status_amended.2.2.1 126 (by decide)

/-- C6 counterexample: with one byte in the transmit buffer the claim
demands a third field of `ceil(1/254) = 1`, but the code computes
`int(1/254 + 0.5) = 0`, so the `L` answer is still all zeroes. -/
theorem C6_link_status_counterexample :
    chanL { initChan 1 with buffer_tx := "a" } = "0 0 0 0 0 0" ∧
    chanL { initChan 1 with buffer_tx := "a" } ≠ "0 0 1 0 0 0" ∧
    (1 + MAX_PKTLEN - 1) / MAX_PKTLEN = 1 := by
  exact ⟨by decide, by decide, by decide⟩

/-- C7: the claim is right and `Channel._station2ip` is wrong: the spec's
tolerant grammar (three mandatory fields plus ignored trailing fields,
empty lines skipped, errors never propagating) is exactly what the
repository's own startup checker `known_stations` (TNC/__main__.py)
implements with its `(ssid, host, port, *extra)` unpacking inside
`try`, but the resolver's strict `(ssid, host, port) = re.split(...)`
raises `ValueError` on a four-field line and even on an empty line, and
nothing in `Channel.run` catches it.  Only the unreadable-file case is
caught and mapped to `(False, False)`. -/
theorem C7_station_file_strict_unpack :
    station2ip true ["EA4BAO HOST 6300 TCP"] "EA4BAO" = .error .valueError ∧
    station2ip true [""] "EA4BAO" = .error .valueError ∧
    knownStations true ["EA4BAO HOST 6300 TCP"] = some 1 ∧
    station2ip true ["# c", "EA4BAO hamserver.example 6300"] "ea4bao" =
      .ok (some ("hamserver.example", 6300)) ∧
    station2ip false ["EA4BAO HOST 6300 TCP"] "EA4BAO" = .ok none := by
  exact ⟨rfl, rfl, rfl, rfl, rfl⟩

/-- C3 counterexample: with the filter set to `"IUS"` and the queue at
its claimed bound of `MAX_MSGS = 10` events, logging a control-class
`UA` frame is admitted and leaves 11 events in the queue, so a log call
can make the length exceed 10. -/
theorem C3_monitor_bound_counterexample :
    (List.replicate 10 ((4 : Nat), "x")).length = MAX_MSGS ∧
    monLog { initMon with mfilter := "IUS", msgs := List.replicate 10 (4, "x") }
      (.str "UA") "A" "B" =
      .ok { { initMon with mfilter := "IUS" } with
            msgs := List.replicate 10 (4, "x") ++ [(MSG_MON_H, "fm A to B ctl UA-")] } ∧
    (List.replicate 10 ((4 : Nat), "x")
      ++ [((4 : Nat), "fm A to B ctl UA-")]).length = 11 := by
  exact ⟨rfl, rfl, rfl⟩

/-- C3: the monitor queue bound.  AMENDED after the counterexample: the
queue is not held at 10 by `Monitor.log`; a log call only refuses to
append when the frame is I-class and the queue already holds at least
`MAX_MSGS = 10` events.  Control-class events are admitted regardless of
the queue length, an I-class log at length 9 appends two events
(reaching 11), and in general one call appends at most two events. -/
theorem C3_monitor_queue_amended :
    (∀ (st : MonState) (src dst : String) (sq nx : Nat) (i : Option String),
      MAX_MSGS ≤ st.msgs.length →
      monLog st (.str "I") src dst (some sq) (some nx) i = .ok st) ∧
    (∀ (st : MonState) (ctl : CtlArg) (src dst : String)
      (sq nx : Option Nat) (i : Option String) (st' : MonState),
      monLog st ctl src dst sq nx i = .ok st' →
      ∃ l, st'.msgs = st.msgs ++ l ∧ l.length ≤ 2) ∧
    (∀ (st : MonState) (src dst : String), inFilter "U" st.mfilter = true →
      monLog st (.str "UA") src dst =
        .ok { st with msgs := st.msgs
          ++ [(MSG_MON_H, "fm " ++ src ++ " to " ++ dst ++ " ctl UA-")] }) := by
  refine ⟨?_, ?_, ?_⟩
  · intro st src dst sq nx i h
    unfold monLog
    have hc : monLogCompose (.str "I") src dst (some sq) (some nx) =
        .ok ("I", "fm " ++ src ++ " to " ++ dst ++ " ctl I" ++ toString nx
          ++ toString sq ++ " pid F0+") := rfl
    rw [hc]
    by_cases hf : inFilter "I" st.mfilter
    · simp [hf, h]
    · simp [hf]
  · intro st ctl src dst sq nx i st' h
    unfold monLog at h
    cases hc : monLogCompose ctl src dst sq nx with
    | error e => rw [hc] at h; exact absurd h (by simp)
    | ok p =>
      obtain ⟨uisc, msg⟩ := p
      rw [hc] at h
      dsimp only at h
      by_cases hf : inFilter uisc st.mfilter
      · rw [if_neg (by simp [hf])] at h
        by_cases hfull : uisc = "I" ∧ MAX_MSGS ≤ st.msgs.length
        · rw [if_pos hfull] at h
          cases h
          exact ⟨[], by simp, by simp⟩
        · rw [if_neg hfull] at h
          by_cases hi : ctl = .str "I"
          · rw [if_pos hi] at h
            cases i with
            | none => exact absurd h (by simp)
            | some inf =>
              cases h
              exact ⟨_, rfl, by simp⟩
          · rw [if_neg hi] at h
            cases h
            exact ⟨_, rfl, by simp⟩
      · rw [if_pos (by simp [hf])] at h
        cases h
        exact ⟨[], by simp, by simp⟩
  · intro st src dst hf
    unfold monLog
    have hc : monLogCompose (.str "UA") src dst none none =
        .ok ("U", "fm " ++ src ++ " to " ++ dst ++ " ctl UA-") := rfl
    rw [hc]
    simp [hf]

/-- Witness for C3: an I-class log against a full queue is a no-op, the
generic bound instantiates on a concrete `UA` log, and a control-class
log is admitted with the queue at 10. -/
theorem C3_monitor_queue_witness :
    monLog { initMon with mfilter := "I", msgs := List.replicate 10 (4, "x") }
      (.str "I") "A" "B" (some 0) (some 1) (some "d") =
      .ok { initMon with mfilter := "I", msgs := List.replicate 10 (4, "x") } ∧
    (∃ l, (List.replicate 10 ((4 : Nat), "x") ++ [(MSG_MON_H, "fm A to B ctl DM-")]) =
      List.replicate 10 (4, "x") ++ l ∧ l.length ≤ 2) ∧
    monLog { initMon with mfilter := "US" } (.str "UA") "C1" "C2" =
      .ok { { initMon with mfilter := "US" } with
            msgs := [(MSG_MON_H, "fm C1 to C2 ctl UA-")] } := by
  refine ⟨?_, ?_, ?_⟩
  · exact C3_monitor_queue_amended.1
      { initMon with mfilter := "I", msgs := List.replicate 10 (4, "x") }
      "A" "B" 0 1 (some "d") (by decide)
  · have h : monLog { initMon with mfilter := "US", msgs := List.replicate 10 (4, "x") }
        (.str "DM") "A" "B" =
        .ok { { initMon with mfilter := "US" } with
              msgs := List.replicate 10 (4, "x") ++ [(MSG_MON_H, "fm A to B ctl DM-")] } := rfl
    exact C3_monitor_queue_amended.2.1 _ (.str "DM") "A" "B" none none none _ h
  · exact C3_monitor_queue_amended.2.2 { initMon with mfilter := "US" } "C1" "C2" rfl

/-! ## Channel worker lemmas (towards C4, C5, C8) -/

theorem countI_append_S (l : List Msg) (m : String) :
    count_msgs (some MSG_I) (l ++ [(MSG_S, m)]) = count_msgs (some MSG_I) l := by
  rw [count_msgs_append, count_msgs_single]
  simp [MSG_S, MSG_I]

theorem countI_append_I (l : List Msg) (m : String) :
    count_msgs (some MSG_I) (l ++ [(MSG_I, m)]) = count_msgs (some MSG_I) l + 1 := by
  rw [count_msgs_append, count_msgs_single]
  simp

/-- `Channel._monitor` touches only `seq`: every other field survives. -/
theorem chanMonitor_ok_fields (st : ChanState) (t : String) (i : Option String)
    (st' : ChanState) (cs : List LogCall)
    (h : chanMonitor st t i = .ok (st', cs)) :
    st'.msgs = st.msgs ∧ st'.station = st.station ∧ st'.status = st.status ∧
    st'.buffer_tx = st.buffer_tx ∧ st'.sockLive = st.sockLive ∧
    st'.nVar = st.nVar ∧ st'.dead = st.dead := by
  unfold chanMonitor at h
  cases hm : monEvtCore st.call st.station st.seq t (iTruthy i) with
  | error e => rw [hm] at h; exact absurd h (by simp)
  | ok o =>
    rw [hm] at h
    cases o with
    | none =>
      dsimp only at h
      cases h
      exact ⟨rfl, rfl, rfl, rfl, rfl, rfl, rfl⟩
    | some q =>
      obtain ⟨mtype, msg, ftype, seq'⟩ := q
      dsimp only at h
      cases h
      exact ⟨rfl, rfl, rfl, rfl, rfl, rfl, rfl⟩

/-- DISC-branch tick: no INFO event is ever appended, and when the
branch finishes without an exception still holding a station, it has
moved to SETUP with a live socket. -/
theorem tickDisc_all (st : ChanState) (env : TickEnv) (st1 : ChanState)
    (cs : List LogCall) (err : Option PyErr)
    (h : tickDisc st env = (st1, cs, err)) :
    count_msgs (some MSG_I) st1.msgs = count_msgs (some MSG_I) st.msgs ∧
    (err = none → st1.station ≠ none →
      st1.status = ST_SETUP ∧ st1.sockLive = true) := by
  unfold tickDisc at h
  cases hs : st.station with
  | none =>
    rw [hs] at h
    dsimp only at h
    injection h with h1 h2
    injection h2 with h2 h3
    subst h1
    exact ⟨rfl, fun _ hstn => absurd hs hstn⟩
  | some sta =>
    rw [hs] at h
    dsimp only at h
    cases hip : station2ip env.openOk env.staLines sta with
    | error e =>
      rw [hip] at h
      injection h with h1 h2
      injection h2 with h2 h3
      subst h1
      subst h3
      exact ⟨rfl, fun hne _ => absurd hne (by simp)⟩
    | ok ipaddr =>
      rw [hip] at h
      dsimp only at h
      by_cases ht : ipTruthy ipaddr
      · rw [if_neg (by simp [ht])] at h
        cases hm : chanMonitor { st with station := some sta, sockLive := true }
            "MySYN" none with
        | error e =>
          rw [hm] at h
          injection h with h1 h2
          injection h2 with h2 h3
          subst h1
          subst h3
          exact ⟨by simp, fun hne _ => absurd hne (by simp)⟩
        | ok p =>
          obtain ⟨st2, cs2⟩ := p
          have h2f := chanMonitor_ok_fields _ _ _ _ _ hm
          rw [hm] at h
          dsimp only at h
          by_cases he : env.errname1 = "WSAEWOULDBLOCK" ∨ env.errname1 = "EINPROGRESS"
          · rw [if_pos he] at h
            injection h with h1 h2
            injection h2 with h2 h3
            subst h1
            have hmm : st2.msgs = st.msgs := by simpa using h2f.1
            refine ⟨by simp [hmm], fun _ _ => ⟨rfl, ?_⟩⟩
            have := h2f.2.2.2.2.1
            simpa using this
          · rw [if_neg he] at h
            cases hm2 : chanMonitor { st2 with msgs := st2.msgs ++
                [(MSG_S, "LINK FAILURE with " ++ sta ++ ": See terminal output")] }
                "ItsRST" none with
            | error e =>
              rw [hm2] at h
              injection h with h1 h2
              injection h2 with h2 h3
              subst h1
              subst h3
              constructor
              · have : st2.msgs = st.msgs := by simpa using h2f.1
                simp [this, countI_append_S]
              · exact fun hne _ => absurd hne (by simp)
            | ok p2 =>
              obtain ⟨st4, cs4⟩ := p2
              have h4f := chanMonitor_ok_fields _ _ _ _ _ hm2
              rw [hm2] at h
              dsimp only at h
              injection h with h1 h2
              injection h2 with h2 h3
              subst h1
              constructor
              · have hst4 : st4.msgs = st2.msgs ++
                    [(MSG_S, "LINK FAILURE with " ++ sta ++ ": See terminal output")] := by
                  simpa using h4f.1
                have : st2.msgs = st.msgs := by simpa using h2f.1
                simp [hst4, this, countI_append_S]
              · intro _ hstn
                simp at hstn
      · rw [if_pos (by simp [ht])] at h
        injection h with h1 h2
        injection h2 with h2 h3
        subst h1
        constructor
        · simp [countI_append_S]
        · intro _ hstn
          simp at hstn

/-- SETUP-branch tick: no INFO event is appended; a completed branch
still holding a station kept the socket and is in the old state or in
CONN. -/
theorem tickSetup_all (st : ChanState) (env : TickEnv) (st1 : ChanState)
    (cs : List LogCall) (err : Option PyErr)
    (h : tickSetup st env = (st1, cs, err)) :
    count_msgs (some MSG_I) st1.msgs = count_msgs (some MSG_I) st.msgs ∧
    (err = none → st1.station ≠ none →
      (st1.status = st.status ∨ st1.status = ST_CONN) ∧
      st1.sockLive = st.sockLive) := by
  unfold tickSetup at h
  by_cases h0 : env.soErr = 0
  · rw [if_pos h0] at h
    by_cases h1 : env.errname2 = "WSAEINVAL"
    · rw [if_pos h1] at h
      injection h with ha hb
      injection hb with hb hc
      subst ha
      exact ⟨rfl, fun _ _ => ⟨Or.inl rfl, rfl⟩⟩
    · rw [if_neg h1] at h
      by_cases h2 : env.errname2 = "WSAEISCONN"
      · rw [if_pos h2] at h
        dsimp only at h
        cases hf : fmtSta st.station "CONNECTED to " " via Internet" with
        | error e =>
          rw [hf] at h
          injection h with ha hb
          injection hb with hb hc
          subst ha
          subst hc
          exact ⟨rfl, fun hne _ => absurd hne (by simp)⟩
        | ok m =>
          rw [hf] at h
          dsimp only at h
          cases hm : chanMonitor { st with status := ST_CONN, msgs := st.msgs ++ [(MSG_S, m)] }
              "ItsSYNACK" none with
          | error e =>
            rw [hm] at h
            injection h with ha hb
            injection hb with hb hc
            subst ha
            subst hc
            exact ⟨by simp [countI_append_S], fun hne _ => absurd hne (by simp)⟩
          | ok p =>
            obtain ⟨st3, cs3⟩ := p
            have h3f := chanMonitor_ok_fields _ _ _ _ _ hm
            rw [hm] at h
            dsimp only at h
            injection h with ha hb
            injection hb with hb hc
            subst ha
            constructor
            · have : st3.msgs = st.msgs ++ [(MSG_S, m)] := by simpa using h3f.1
              simp [this, countI_append_S]
            · intro _ _
              refine ⟨Or.inr ?_, ?_⟩
              · have := h3f.2.2.1
                simpa using this
              · have := h3f.2.2.2.2.1
                simpa using this
      · rw [if_neg h2] at h
        injection h with ha hb
        injection hb with hb hc
        subst ha
        exact ⟨rfl, fun _ _ => ⟨Or.inl rfl, rfl⟩⟩
  · rw [if_neg h0] at h
    by_cases h1 : env.errname3 = "WSAECONNREFUSED"
    · rw [if_pos h1] at h
      cases hf : fmtSta st.station "BUSY fm " "" with
      | error e =>
        rw [hf] at h
        injection h with ha hb
        injection hb with hb hc
        subst ha
        subst hc
        exact ⟨rfl, fun hne _ => absurd hne (by simp)⟩
      | ok m =>
        rw [hf] at h
        dsimp only at h
        cases hm : chanMonitor { st with msgs := st.msgs ++ [(MSG_S, m)] } "ItsRST" none with
        | error e =>
          rw [hm] at h
          injection h with ha hb
          injection hb with hb hc
          subst ha
          subst hc
          exact ⟨by simp [countI_append_S], fun hne _ => absurd hne (by simp)⟩
        | ok p =>
          obtain ⟨st2, cs2⟩ := p
          have h2f := chanMonitor_ok_fields _ _ _ _ _ hm
          rw [hm] at h
          dsimp only at h
          injection h with ha hb
          injection hb with hb hc
          subst ha
          constructor
          · have : st2.msgs = st.msgs ++ [(MSG_S, m)] := by simpa using h2f.1
            simp [this, countI_append_S]
          · intro _ hstn
            simp at hstn
    · rw [if_neg h1] at h
      by_cases h2 : env.errname3 = "WSAETIMEDOUT"
      · rw [if_pos h2] at h
        cases hm : chanMonitor st "MyRST" none with
        | error e =>
          rw [hm] at h
          injection h with ha hb
          injection hb with hb hc
          subst ha
          subst hc
          exact ⟨rfl, fun hne _ => absurd hne (by simp)⟩
        | ok p =>
          obtain ⟨stm, csm⟩ := p
          have hmf := chanMonitor_ok_fields _ _ _ _ _ hm
          rw [hm] at h
          dsimp only at h
          cases hf : fmtSta stm.station "LINK FAILURE with " "" with
          | error e =>
            rw [hf] at h
            injection h with ha hb
            injection hb with hb hc
            subst ha
            subst hc
            exact ⟨by simp [hmf.1], fun hne _ => absurd hne (by simp)⟩
          | ok m =>
            rw [hf] at h
            injection h with ha hb
            injection hb with hb hc
            subst ha
            constructor
            · simp [hmf.1, countI_append_S]
            · intro _ hstn
              simp at hstn
      · rw [if_neg h2] at h
        cases hm : chanMonitor st "ItsRST" none with
        | error e =>
          rw [hm] at h
          injection h with ha hb
          injection hb with hb hc
          subst ha
          subst hc
          exact ⟨rfl, fun hne _ => absurd hne (by simp)⟩
        | ok p =>
          obtain ⟨stm, csm⟩ := p
          have hmf := chanMonitor_ok_fields _ _ _ _ _ hm
          rw [hm] at h
          dsimp only at h
          cases hf : fmtSta stm.station "LINK FAILURE with " "" with
          | error e =>
            rw [hf] at h
            injection h with ha hb
            injection hb with hb hc
            subst ha
            subst hc
            exact ⟨by simp [hmf.1], fun hne _ => absurd hne (by simp)⟩
          | ok m =>
            rw [hf] at h
            injection h with ha hb
            injection hb with hb hc
            subst ha
            constructor
            · simp [hmf.1, countI_append_S]
            · intro _ hstn
              simp at hstn

/-- The `try: send` section: appends only link-status events and leaves
`status` and `sockLive` alone. -/
theorem connSendTry_all (st : ChanState) (env : TickEnv) (st1 : ChanState)
    (cs : List LogCall) (err : Option PyErr)
    (h : connSendTry st env = (st1, cs, err)) :
    count_msgs (some MSG_I) st1.msgs = count_msgs (some MSG_I) st.msgs ∧
    st1.status = st.status ∧ st1.sockLive = st.sockLive := by
  unfold connSendTry at h
  cases hsr : env.sendRes with
  | sent n =>
    rw [hsr] at h
    dsimp only at h
    cases hm : chanMonitor { st with nVar := some n } "MyPSH"
        (some (strTake MAX_PKTLEN st.buffer_tx)) with
    | error e =>
      rw [hm] at h
      injection h with ha hb
      subst ha
      exact ⟨rfl, rfl, rfl⟩
    | ok p =>
      obtain ⟨s2, cs2⟩ := p
      have hf := chanMonitor_ok_fields _ _ _ _ _ hm
      rw [hm] at h
      dsimp only at h
      injection h with ha hb
      subst ha
      refine ⟨by have := hf.1; simp at this; simp [this], ?_, ?_⟩
      · have := hf.2.2.1
        simpa using this
      · have := hf.2.2.2.2.1
        simpa using this
  | reset =>
    rw [hsr] at h
    dsimp only at h
    cases hfs : fmtSta st.station "LINK RESET fm " "" with
    | error e =>
      rw [hfs] at h
      injection h with ha hb
      subst ha
      exact ⟨rfl, rfl, rfl⟩
    | ok m =>
      rw [hfs] at h
      dsimp only at h
      cases hm : chanMonitor { st with msgs := st.msgs ++ [(MSG_S, m)] } "ItsRST" none with
      | error e =>
        rw [hm] at h
        injection h with ha hb
        subst ha
        exact ⟨by simp [countI_append_S], rfl, rfl⟩
      | ok p =>
        obtain ⟨s2, cs2⟩ := p
        have hf := chanMonitor_ok_fields _ _ _ _ _ hm
        rw [hm] at h
        dsimp only at h
        injection h with ha hb
        subst ha
        refine ⟨?_, ?_, ?_⟩
        · have : s2.msgs = st.msgs ++ [(MSG_S, m)] := by simpa using hf.1
          simp [this, countI_append_S]
        · have := hf.2.2.1
          simpa using this
        · have := hf.2.2.2.2.1
          simpa using this

/-- The `if n > 0` acknowledgement block: same queue discipline. -/
theorem connSendAck_all (s0 : ChanState) (cs0 : List LogCall) (err0 : Option PyErr)
    (st1 : ChanState) (cs : List LogCall) (err : Option PyErr)
    (h : connSendAck (s0, cs0, err0) = (st1, cs, err)) :
    count_msgs (some MSG_I) st1.msgs = count_msgs (some MSG_I) s0.msgs ∧
    st1.status = s0.status ∧ st1.sockLive = s0.sockLive := by
  unfold connSendAck at h
  cases err0 with
  | some e =>
    dsimp only at h
    injection h with ha hb
    subst ha
    exact ⟨rfl, rfl, rfl⟩
  | none =>
    dsimp only at h
    cases hn : s0.nVar with
    | none =>
      rw [hn] at h
      injection h with ha hb
      subst ha
      exact ⟨rfl, rfl, rfl⟩
    | some n =>
      rw [hn] at h
      dsimp only at h
      by_cases hp : 0 < n
      · rw [if_pos hp] at h
        cases hm : chanMonitor { s0 with buffer_tx := strDrop n s0.buffer_tx, nVar := some n }
            "ItsPSHACK" none with
        | error e =>
          rw [hm] at h
          injection h with ha hb
          subst ha
          exact ⟨by simp, rfl, rfl⟩
        | ok p =>
          obtain ⟨s3, cs3⟩ := p
          have hf := chanMonitor_ok_fields _ _ _ _ _ hm
          rw [hm] at h
          dsimp only at h
          injection h with ha hb
          subst ha
          refine ⟨?_, ?_, ?_⟩
          · have : s3.msgs = s0.msgs := by simpa using hf.1
            simp [this]
          · have := hf.2.2.1
            simpa using this
          · have := hf.2.2.2.2.1
            simpa using this
      · rw [if_neg hp] at h
        injection h with ha hb
        subst ha
        exact ⟨rfl, rfl, rfl⟩

theorem connSend_all (st : ChanState) (env : TickEnv) (st1 : ChanState)
    (cs : List LogCall) (err : Option PyErr)
    (h : connSend st env = (st1, cs, err)) :
    count_msgs (some MSG_I) st1.msgs = count_msgs (some MSG_I) st.msgs ∧
    st1.status = st.status ∧ st1.sockLive = st.sockLive := by
  unfold connSend at h
  by_cases hb : st.buffer_tx = ""
  · rw [if_pos hb] at h
    injection h with ha hrest
    subst ha
    exact ⟨rfl, rfl, rfl⟩
  · rw [if_neg hb] at h
    rcases htr : connSendTry st env with ⟨s0, cs0, err0⟩
    rw [htr] at h
    have h1 := connSendTry_all st env s0 cs0 err0 htr
    have h2 := connSendAck_all s0 cs0 err0 st1 cs err h
    exact ⟨by rw [h2.1, h1.1], by rw [h2.2.1, h1.2.1], by rw [h2.2.2, h1.2.2]⟩

/-- The RX section appends at most one INFO event and leaves `status`
and `sockLive` alone. -/
theorem connRecv_all (st : ChanState) (env : TickEnv) (st1 : ChanState)
    (cs : List LogCall) (err : Option PyErr)
    (h : connRecv st env = (st1, cs, err)) :
    count_msgs (some MSG_I) st1.msgs ≤ count_msgs (some MSG_I) st.msgs + 1 ∧
    st1.status = st.status ∧ st1.sockLive = st.sockLive := by
  unfold connRecv at h
  cases hrr : env.recvRes with
  | recvData d =>
    rw [hrr] at h
    dsimp only at h
    by_cases hd : d = ""
    · rw [if_pos hd] at h
      cases hfs : fmtSta st.station "DISCONNECTED fm " "" with
      | error e =>
        rw [hfs] at h
        injection h with ha hb
        subst ha
        exact ⟨by omega, rfl, rfl⟩
      | ok m =>
        rw [hfs] at h
        dsimp only at h
        cases hm : chanMonitor { st with msgs := st.msgs ++ [(MSG_S, m)] } "ItsFIN" none with
        | error e =>
          rw [hm] at h
          injection h with ha hb
          subst ha
          exact ⟨by simp [countI_append_S], rfl, rfl⟩
        | ok p =>
          obtain ⟨s2, cs2⟩ := p
          have hf := chanMonitor_ok_fields _ _ _ _ _ hm
          rw [hm] at h
          dsimp only at h
          cases hm2 : chanMonitor s2 "MyFINACK" none with
          | error e =>
            rw [hm2] at h
            injection h with ha hb
            subst ha
            have : s2.msgs = st.msgs ++ [(MSG_S, m)] := by simpa using hf.1
            exact ⟨by simp [this, countI_append_S],
              by have := hf.2.2.1; simpa using this,
              by have := hf.2.2.2.2.1; simpa using this⟩
          | ok p2 =>
            obtain ⟨s3, cs3⟩ := p2
            have hf2 := chanMonitor_ok_fields _ _ _ _ _ hm2
            rw [hm2] at h
            dsimp only at h
            injection h with ha hb
            subst ha
            have hms : s2.msgs = st.msgs ++ [(MSG_S, m)] := by simpa using hf.1
            refine ⟨by simp [hf2.1, hms, countI_append_S], ?_, ?_⟩
            · have e1 := hf2.2.2.1
              have e2 : s2.status = st.status := by have := hf.2.2.1; simpa using this
              simp [e1, e2]
            · have e1 := hf2.2.2.2.2.1
              have e2 : s2.sockLive = st.sockLive := by
                have := hf.2.2.2.2.1; simpa using this
              simp [e1, e2]
    · rw [if_neg hd] at h
      by_cases hff : startsWithB "\xff" d = true
      · rw [if_pos hff] at h
        injection h with ha hb
        subst ha
        exact ⟨by omega, rfl, rfl⟩
      · rw [if_neg hff] at h
        cases hm : chanMonitor { st with msgs := st.msgs ++ [(MSG_I, d)] }
            "ItsPSH" (some d) with
        | error e =>
          rw [hm] at h
          injection h with ha hb
          subst ha
          exact ⟨by simp [countI_append_I], rfl, rfl⟩
        | ok p =>
          obtain ⟨s2, cs2⟩ := p
          have hf := chanMonitor_ok_fields _ _ _ _ _ hm
          rw [hm] at h
          dsimp only at h
          cases hm2 : chanMonitor s2 "MyPSHACK" none with
          | error e =>
            rw [hm2] at h
            injection h with ha hb
            subst ha
            have : s2.msgs = st.msgs ++ [(MSG_I, d)] := by simpa using hf.1
            exact ⟨by simp [this, countI_append_I],
              by have := hf.2.2.1; simpa using this,
              by have := hf.2.2.2.2.1; simpa using this⟩
          | ok p2 =>
            obtain ⟨s3, cs3⟩ := p2
            have hf2 := chanMonitor_ok_fields _ _ _ _ _ hm2
            rw [hm2] at h
            dsimp only at h
            injection h with ha hb
            subst ha
            have hms : s2.msgs = st.msgs ++ [(MSG_I, d)] := by simpa using hf.1
            refine ⟨by simp [hf2.1, hms, countI_append_I], ?_, ?_⟩
            · have e1 := hf2.2.2.1
              have e2 : s2.status = st.status := by have := hf.2.2.1; simpa using this
              simp [e1, e2]
            · have e1 := hf2.2.2.2.2.1
              have e2 : s2.sockLive = st.sockLive := by
                have := hf.2.2.2.2.1; simpa using this
              simp [e1, e2]
  | wouldBlock =>
    rw [hrr] at h
    injection h with ha hb
    subst ha
    exact ⟨by omega, rfl, rfl⟩
  | reset =>
    rw [hrr] at h
    dsimp only at h
    cases hfs : fmtSta st.station "LINK RESET fm " "" with
    | error e =>
      rw [hfs] at h
      injection h with ha hb
      subst ha
      exact ⟨by omega, rfl, rfl⟩
    | ok m =>
      rw [hfs] at h
      dsimp only at h
      cases hm : chanMonitor { st with msgs := st.msgs ++ [(MSG_S, m)] } "ItsRST" none with
      | error e =>
        rw [hm] at h
        injection h with ha hb
        subst ha
        exact ⟨by simp [countI_append_S], rfl, rfl⟩
      | ok p =>
        obtain ⟨s2, cs2⟩ := p
        have hf := chanMonitor_ok_fields _ _ _ _ _ hm
        rw [hm] at h
        dsimp only at h
        injection h with ha hb
        subst ha
        have : s2.msgs = st.msgs ++ [(MSG_S, m)] := by simpa using hf.1
        exact ⟨by simp [this, countI_append_S],
          by have := hf.2.2.1; simpa using this,
          by have := hf.2.2.2.2.1; simpa using this⟩

/-- CONN-branch tick: at most one INFO event per tick, the
`MAX_I_MSGS` gate blocks the read, and `status`/`sockLive` survive. -/
theorem tickConn_all (st : ChanState) (env : TickEnv) (st1 : ChanState)
    (cs : List LogCall) (err : Option PyErr) (d : Bool)
    (h : tickConn st env = ((st1, cs, err), d)) :
    count_msgs (some MSG_I) st1.msgs ≤ count_msgs (some MSG_I) st.msgs + 1 ∧
    (count_msgs (some MSG_I) st.msgs ≤ MAX_I_MSGS →
      count_msgs (some MSG_I) st1.msgs ≤ MAX_I_MSGS) ∧
    (MAX_I_MSGS ≤ count_msgs (some MSG_I) st.msgs → d = false) ∧
    st1.status = st.status ∧ st1.sockLive = st.sockLive := by
  unfold tickConn at h
  rcases hsend : connSend st env with ⟨s0, cs0, err0⟩
  rw [hsend] at h
  have hS := connSend_all st env s0 cs0 err0 hsend
  cases err0 with
  | some e =>
    dsimp only at h
    injection h with ha hd
    injection ha with ha hb
    subst ha
    subst hd
    exact ⟨by omega, by omega, fun _ => rfl, hS.2.1, hS.2.2⟩
  | none =>
    dsimp only at h
    by_cases hg : count_msgs (some MSG_I) s0.msgs < MAX_I_MSGS
    · rw [if_pos hg] at h
      rcases hrecv : connRecv s0 env with ⟨s1, cs1, err1⟩
      rw [hrecv] at h
      have hR := connRecv_all s0 env s1 cs1 err1 hrecv
      dsimp only at h
      injection h with ha hd
      injection ha with ha hb
      subst ha
      subst hd
      refine ⟨by omega, by omega, fun hfull => ?_, by rw [hR.2.1, hS.2.1],
        by rw [hR.2.2, hS.2.2]⟩
      omega
    · rw [if_neg hg] at h
      injection h with ha hd
      injection ha with ha hb
      subst ha
      subst hd
      exact ⟨by omega, by omega, fun _ => rfl, hS.2.1, hS.2.2⟩

/-- One branch dispatch of `Channel.run` (the `if/elif` chain). -/
theorem tickBranch_all (s : ChanState) (env : TickEnv) (st1 : ChanState)
    (cs : List LogCall) (err : Option PyErr) (d : Bool)
    (h : tickBranch s env = ((st1, cs, err), d)) :
    count_msgs (some MSG_I) st1.msgs ≤ count_msgs (some MSG_I) s.msgs + 1 ∧
    (count_msgs (some MSG_I) s.msgs ≤ MAX_I_MSGS →
      count_msgs (some MSG_I) st1.msgs ≤ MAX_I_MSGS) ∧
    (MAX_I_MSGS ≤ count_msgs (some MSG_I) s.msgs → d = false) ∧
    (err = none → st1.station ≠ none →
      st1.status ≠ ST_DISC ∧
      ((s.status ≠ ST_DISC → s.sockLive = true) → st1.sockLive = true)) := by
  unfold tickBranch at h
  by_cases h0 : s.status = ST_DISC
  · rw [if_pos h0] at h
    injection h with ha hd
    have hD := tickDisc_all s env st1 cs err ha
    refine ⟨by omega, by omega, fun _ => hd.symm, fun he hstn => ?_⟩
    obtain ⟨hst, hsl⟩ := hD.2 he hstn
    exact ⟨by rw [hst]; decide, fun _ => hsl⟩
  · rw [if_neg h0] at h
    by_cases h1 : s.status = ST_SETUP
    · rw [if_pos h1] at h
      injection h with ha hd
      have hD := tickSetup_all s env st1 cs err ha
      refine ⟨by omega, by omega, fun _ => hd.symm, fun he hstn => ?_⟩
      obtain ⟨hst, hsl⟩ := hD.2 he hstn
      constructor
      · cases hst with
        | inl hh => rw [hh]; exact h0
        | inr hh => rw [hh]; decide
      · intro hs
        rw [hsl]
        exact hs h0
    · rw [if_neg h1] at h
      by_cases h2 : s.status = ST_CONN
      · rw [if_pos h2] at h
        have hC := tickConn_all s env st1 cs err d h
        refine ⟨hC.1, hC.2.1, hC.2.2.1, fun he hstn => ?_⟩
        constructor
        · rw [hC.2.2.2.1, h2]; decide
        · intro hs
          rw [hC.2.2.2.2]
          exact hs h0
      · rw [if_neg h2] at h
        injection h with ha hd
        injection ha with ha hb
        subst ha
        exact ⟨by omega, by omega, fun _ => hd.symm,
          fun _ _ => ⟨h0, fun hs => hs h0⟩⟩

/-- Unfolding `tick` over a known completed branch. -/
theorem tick_of_branch (s : ChanState) (env : TickEnv) (st1 : ChanState)
    (cs : List LogCall) (d : Bool)
    (h : tickBranch s env = ((st1, cs, none), d)) :
    tick s env = if st1.station = none
      then { st := { st1 with status := ST_DISC, sockLive := false },
             calls := cs, err := none, didRecv := d }
      else { st := st1, calls := cs, err := none, didRecv := d } := by
  unfold tick
  rw [h]

/-- Unfolding `tick` over a branch that raised. -/
theorem tick_of_branch_err (s : ChanState) (env : TickEnv) (st1 : ChanState)
    (cs : List LogCall) (e : PyErr) (d : Bool)
    (h : tickBranch s env = ((st1, cs, some e), d)) :
    tick s env = { st := { st1 with dead := true }, calls := cs,
                   err := some e, didRecv := d } := by
  unfold tick
  rw [h]

theorem tick_msgs_le (s : ChanState) (env : TickEnv) :
    count_msgs (some MSG_I) (tick s env).st.msgs ≤
      count_msgs (some MSG_I) s.msgs + 1 := by
  rcases hb : tickBranch s env with ⟨⟨st1, cs, err⟩, d⟩
  have hall := tickBranch_all s env st1 cs err d hb
  cases err with
  | some e => rw [tick_of_branch_err s env st1 cs e d hb]; simpa using hall.1
  | none =>
    rw [tick_of_branch s env st1 cs d hb]
    by_cases hstn : st1.station = none
    · rw [if_pos hstn]; simpa using hall.1
    · rw [if_neg hstn]; exact hall.1

theorem tick_msgs_inv (s : ChanState) (env : TickEnv)
    (h : count_msgs (some MSG_I) s.msgs ≤ MAX_I_MSGS) :
    count_msgs (some MSG_I) (tick s env).st.msgs ≤ MAX_I_MSGS := by
  rcases hb : tickBranch s env with ⟨⟨st1, cs, err⟩, d⟩
  have hall := tickBranch_all s env st1 cs err d hb
  cases err with
  | some e => rw [tick_of_branch_err s env st1 cs e d hb]; simpa using hall.2.1 h
  | none =>
    rw [tick_of_branch s env st1 cs d hb]
    by_cases hstn : st1.station = none
    · rw [if_pos hstn]; simpa using hall.2.1 h
    · rw [if_neg hstn]; exact hall.2.1 h

theorem tick_didRecv_full (s : ChanState) (env : TickEnv)
    (h : MAX_I_MSGS ≤ count_msgs (some MSG_I) s.msgs) :
    (tick s env).didRecv = false := by
  rcases hb : tickBranch s env with ⟨⟨st1, cs, err⟩, d⟩
  have hall := tickBranch_all s env st1 cs err d hb
  cases err with
  | some e => rw [tick_of_branch_err s env st1 cs e d hb]; exact hall.2.2.1 h
  | none =>
    rw [tick_of_branch s env st1 cs d hb]
    by_cases hstn : st1.station = none
    · rw [if_pos hstn]; exact hall.2.2.1 h
    · rw [if_neg hstn]; exact hall.2.2.1 h

/-- A completed tick re-establishes the DISC / remote / socket
equivalence, provided the socket was live whenever the state was not
DISC on entry. -/
theorem tick_done_iff (s : ChanState) (env : TickEnv)
    (hs : s.status ≠ ST_DISC → s.sockLive = true)
    (herr : (tick s env).err = none) :
    ((tick s env).st.station = none ↔ (tick s env).st.status = ST_DISC) ∧
    ((tick s env).st.station = none ↔ (tick s env).st.sockLive = false) := by
  rcases hb : tickBranch s env with ⟨⟨st1, cs, err⟩, d⟩
  have hall := tickBranch_all s env st1 cs err d hb
  cases err with
  | some e =>
    rw [tick_of_branch_err s env st1 cs e d hb] at herr
    simp at herr
  | none =>
    rw [tick_of_branch s env st1 cs d hb]
    by_cases hstn : st1.station = none
    · rw [if_pos hstn]
      constructor
      · simpa using hstn
      · simpa using hstn
    · rw [if_neg hstn]
      obtain ⟨hst, hsl⟩ := hall.2.2.2 rfl hstn
      constructor
      · exact iff_of_false hstn hst
      · refine iff_of_false hstn ?_
        rw [hsl hs]
        simp

theorem tick_err_dead (s : ChanState) (env : TickEnv) (e : PyErr)
    (h : (tick s env).err = some e) : (tick s env).st.dead = true := by
  rcases hb : tickBranch s env with ⟨⟨st1, cs, err⟩, d⟩
  cases err with
  | some e2 => rw [tick_of_branch_err s env st1 cs e2 d hb]
  | none =>
    rw [tick_of_branch s env st1 cs d hb] at h
    by_cases hstn : st1.station = none
    · rw [if_pos hstn] at h; simp at h
    · rw [if_neg hstn] at h; simp at h

/-! ### Host-side channel operations and reachable channel states -/

theorem chan_get_msg_count (t : Option Nat) (msgs : List Msg) (j : Nat) :
    count_msgs (some j) (chan_get_msg t msgs).snd ≤ count_msgs (some j) msgs := by
  cases msgs with
  | nil => simp [chan_get_msg]
  | cons m rest =>
    cases t with
    | none =>
      simp only [chan_get_msg]
      rw [count_msgs_cons]
      omega
    | some k =>
      cases hs : scanPop k (m :: rest) with
      | none => simp [chan_get_msg, hs]
      | some p =>
        obtain ⟨x, r⟩ := p
        simp only [chan_get_msg, hs]
        exact scanPop_count k j (m :: rest) x r hs

/-- `Channel.D` leaves `status`, `sockLive`, `dead` and the INFO count
unchanged whether or not it raises. -/
theorem chanDState_all (s : ChanState) :
    count_msgs (some MSG_I) (chanDState s).msgs = count_msgs (some MSG_I) s.msgs ∧
    (chanDState s).status = s.status ∧ (chanDState s).sockLive = s.sockLive ∧
    (chanDState s).dead = s.dead := by
  unfold chanDState chanD
  by_cases hd : s.status ≠ ST_DISC
  · rw [if_pos hd]
    cases hm : chanMonitor s "MyFIN" none with
    | error e => exact ⟨rfl, rfl, rfl, rfl⟩
    | ok p =>
      obtain ⟨s1, cs1⟩ := p
      have h1 := chanMonitor_ok_fields _ _ _ _ _ hm
      dsimp only
      cases hm2 : chanMonitor s1 "ItsFINACK" none with
      | error e => exact ⟨rfl, rfl, rfl, rfl⟩
      | ok p2 =>
        obtain ⟨s2, cs2⟩ := p2
        have h2 := chanMonitor_ok_fields _ _ _ _ _ hm2
        dsimp only
        cases hf : fmtSta s2.station "DISCONNECTED fm " "" with
        | error e => exact ⟨rfl, rfl, rfl, rfl⟩
        | ok m =>
          dsimp only
          refine ⟨?_, ?_, ?_, ?_⟩
          · simp [h2.1, h1.1, countI_append_S]
          · simp [h2.2.2.1, h1.2.2.1]
          · simp [h2.2.2.2.2.1, h1.2.2.2.2.1]
          · simp [h2.2.2.2.2.2.2, h1.2.2.2.2.2.2]
  · rw [if_neg hd]
    exact ⟨rfl, rfl, rfl, rfl⟩

/-- Channel states reachable from construction under worker ticks and
the host-side operations (`C`, `D`, `tx`, `G`, `I`).  A worker whose
iteration raised is `dead` and ticks no further; host operations remain
possible. -/
inductive Reach : ChanState → Prop where
  | init (ch : Nat) (mycall : String) : Reach (initChan ch mycall)
  | wtick (s : ChanState) (env : TickEnv) (hr : Reach s) (hdead : s.dead = false) :
      Reach (tick s env).st
  | cset (s : ChanState) (sta : String) (hr : Reach s) (hsta : sta ≠ "") :
      Reach (chanCSet s sta)
  | dcmd (s : ChanState) (hr : Reach s) : Reach (chanDState s)
  | txop (s : ChanState) (dat : String) (hr : Reach s) : Reach (chanTx s dat)
  | poll (s : ChanState) (t : Option Nat) (hr : Reach s) : Reach (chanG t s).snd
  | iset (s : ChanState) (c : String) (hr : Reach s) (hc : c ≠ "") :
      Reach (chanISet s c)

/-- On a live (not crashed) reachable state, a non-DISC status always
has a live socket. -/
theorem reach_live (s : ChanState) (h : Reach s) :
    s.dead = false → s.status ≠ ST_DISC → s.sockLive = true := by
  induction h with
  | init ch mycall => intro _ hst; exact absurd rfl hst
  | wtick s env hr hdead ih =>
    intro hd hst
    rcases hb : tickBranch s env with ⟨⟨st1, cs, err⟩, d⟩
    have hall := tickBranch_all s env st1 cs err d hb
    cases err with
    | some e =>
      rw [tick_of_branch_err s env st1 cs e d hb] at hd
      simp at hd
    | none =>
      rw [tick_of_branch s env st1 cs d hb] at hst ⊢
      by_cases hstn : st1.station = none
      · rw [if_pos hstn] at hst
        simp at hst
      · rw [if_neg hstn] at hst ⊢
        exact (hall.2.2.2 rfl hstn).2 (ih hdead)
  | cset s sta hr hsta ih => exact fun hd hst => ih hd hst
  | dcmd s hr ih =>
    intro hd hst
    have hD := chanDState_all s
    rw [hD.2.2.1]
    exact ih (by rw [← hD.2.2.2]; exact hd) (by rw [← hD.2.1]; exact hst)
  | txop s dat hr ih => exact fun hd hst => ih hd hst
  | poll s t hr ih => exact fun hd hst => ih hd hst
  | iset s c hr hc ih => exact fun hd hst => ih hd hst

/-- C4: for every connection channel at all times, the number of INFO
events in its queue is at most `MAX_I_MSGS = 9`; the worker does not
read from its socket while this bound is reached, and each tick
enqueues at most one INFO event. -/
theorem C4_info_backpressure :
    (∀ s : ChanState, Reach s → count_msgs (some MSG_I) s.msgs ≤ MAX_I_MSGS) ∧
    (∀ (s : ChanState) (env : TickEnv),
      MAX_I_MSGS ≤ count_msgs (some MSG_I) s.msgs → (tick s env).didRecv = false) ∧
    (∀ (s : ChanState) (env : TickEnv),
      count_msgs (some MSG_I) (tick s env).st.msgs ≤
        count_msgs (some MSG_I) s.msgs + 1) := by
  refine ⟨?_, tick_didRecv_full, tick_msgs_le⟩
  intro s h
  induction h with
  | init ch mycall => exact Nat.zero_le _
  | wtick s env hr hdead ih => exact tick_msgs_inv s env ih
  | cset s sta hr hsta ih => exact ih
  | dcmd s hr ih => rw [(chanDState_all s).1]; exact ih
  | txop s dat hr ih => exact ih
  | poll s t hr ih => exact le_trans (chan_get_msg_count t s.msgs MSG_I) ih
  | iset s c hr hc ih => exact ih

/-- Witness for C4: the bound on a fresh channel, the blocked read at a
full queue, and the one-INFO-per-tick bound at the initial state. -/
theorem C4_info_backpressure_witness :
    count_msgs (some MSG_I) (initChan 1).msgs ≤ MAX_I_MSGS ∧
    (tick { initChan 1 with status := ST_CONN, station := some "EA4BAO", sockLive := true, msgs := List.replicate 9 (MSG_I, "d") } {}).didRecv = false ∧
    count_msgs (some MSG_I) (tick (initChan 1) {}).st.msgs ≤
      count_msgs (some MSG_I) (initChan 1).msgs + 1 := by
  refine ⟨C4_info_backpressure.1 (initChan 1) (Reach.init 1 "NOCALL"), ?_, C4_info_backpressure.2.2 (initChan 1) {}⟩
  exact C4_info_backpressure.2.1 _ {} (by decide)

/-- C5 counterexample: the host-side `connect()` (`Channel.C`) sets the
remote while the worker has not run yet, so a reachable state has
`state == DISC` with `remote` set and no socket, refuting the claimed
equivalence at states between a host command and the next tick. -/
theorem C5_disc_iff_counterexample :
    Reach (chanCSet (initChan 1) "EA4BAO") ∧
    (chanCSet (initChan 1) "EA4BAO").status = ST_DISC ∧
    (chanCSet (initChan 1) "EA4BAO").station = some "EA4BAO" ∧
    (chanCSet (initChan 1) "EA4BAO").sockLive = false := by
  exact ⟨Reach.cset _ _ (Reach.init 1 "NOCALL") (by decide), rfl, by decide, rfl⟩

/-- C5: `state == DISC` iff `remote` unset iff no live socket.  AMENDED
after the counterexample: the equivalence holds at the end of every
worker tick that completes without raising, from any reachable live
state; between a host-issued `connect()`/`disconnect()` and the next
tick it can fail (`connect()` sets the remote while the state is still
DISC, `disconnect()` clears it while the state is still CONN). -/
theorem C5_disc_iff_amended (s : ChanState) (env : TickEnv)
    (hr : Reach s) (hd : s.dead = false) (herr : (tick s env).err = none) :
    ((tick s env).st.station = none ↔ (tick s env).st.status = ST_DISC) ∧
    ((tick s env).st.station = none ↔ (tick s env).st.sockLive = false) :=
  tick_done_iff s env (reach_live s hr hd) herr

/-- Witness for C5: a completed tick of a freshly constructed channel. -/
theorem C5_disc_iff_witness :
    ((tick (initChan 1) {}).st.station = none ↔
      (tick (initChan 1) {}).st.status = ST_DISC) ∧
    ((tick (initChan 1) {}).st.station = none ↔
      (tick (initChan 1) {}).st.sockLive = false) :=
  C5_disc_iff_amended (initChan 1) {} (Reach.init 1 "NOCALL") rfl rfl

/-- `_monitor("ItsSYNACK")` on a channel with a station: one `UA`
monitor-header call, no state change. -/
theorem chanMonitor_ItsSYNACK (st : ChanState) (r : String)
    (h : st.station = some r) :
    chanMonitor st "ItsSYNACK" none =
      .ok (st, [(MSG_MON_H, "fm " ++ r ++ " to " ++ st.call ++ " ctl UA-", "U")]) := by
  unfold chanMonitor monEvtCore iTruthy
  rw [h]
  norm_num
  rw [if_neg (by decide : ¬ (("ItsSYNACK" : String) = "MySYN"))]
  rw [← h]

/-- C8 counterexample: the SETUP retry that reports "already connected"
enqueues the text `"CONNECTED to EA4BAO via Internet"`, not
`"... via Telnet"` as the claim states. -/
theorem C8_connected_text_counterexample :
    (tick { initChan 1 with status := ST_SETUP, station := some "EA4BAO", sockLive := true }
        { soErr := 0, errname2 := "WSAEISCONN" }).st.msgs =
      [(MSG_S, "CONNECTED to EA4BAO via Internet")] ∧
    [((MSG_S : Nat), "CONNECTED to EA4BAO via Internet")] ≠
      [((MSG_S : Nat), "CONNECTED to EA4BAO via Telnet")] := by
  exact ⟨rfl, by decide⟩

/-- C8: when a SETUP-state connect retry reports "already connected",
the channel moves to CONN and enqueues one link-status event.  AMENDED
after the counterexample: the enqueued text is
`"CONNECTED to <remote> via Internet"` (the source formats
`b"CONNECTED to %s via Internet"`), not "via Telnet". -/
theorem C8_connected_text_amended (s : ChanState) (env : TickEnv) (r : String)
    (h1 : s.status = ST_SETUP) (h2 : s.station = some r)
    (h3 : env.soErr = 0) (h4 : env.errname2 = "WSAEISCONN") :
    (tick s env).st.status = ST_CONN ∧
    (tick s env).st.msgs =
      s.msgs ++ [(MSG_S, "CONNECTED to " ++ r ++ " via Internet")] := by
  rcases hb : tickBranch s env with ⟨⟨st1, cs, err⟩, d⟩
  have hb2 := hb
  unfold tickBranch at hb2
  rw [h1, if_neg (by decide : ¬ (ST_SETUP = ST_DISC)), if_pos rfl] at hb2
  unfold tickSetup at hb2
  rw [h3, if_pos rfl, h4,
    if_neg (by decide : ¬ (("WSAEISCONN" : String) = "WSAEINVAL")),
    if_pos rfl] at hb2
  rw [h2] at hb2
  simp only [fmtSta] at hb2
  rw [chanMonitor_ItsSYNACK
    { s with
        status := ST_CONN, station := some r,
        msgs := s.msgs ++ [(MSG_S, "CONNECTED to " ++ r ++ " via Internet")] } r rfl] at hb2
  dsimp only at hb2
  injection hb2 with ha hd
  injection ha with ha hb3
  injection hb3 with hb3 hc
  rw [tick_of_branch s env st1 cs d (by rw [hb, ← hc])]
  rw [if_neg (by rw [← ha]; simp)]
  constructor
  · rw [← ha]
  · rw [← ha]

/-- Witness for C8: the amended statement applied at a concrete SETUP
state. -/
theorem C8_connected_text_witness :
    (tick { initChan 1 with status := ST_SETUP, station := some "EA4BAO", sockLive := true }
        { soErr := 0, errname2 := "WSAEISCONN" }).st.status = ST_CONN ∧
    (tick { initChan 1 with status := ST_SETUP, station := some "EA4BAO", sockLive := true }
        { soErr := 0, errname2 := "WSAEISCONN" }).st.msgs =
      [] ++ [(MSG_S, "CONNECTED to " ++ "EA4BAO" ++ " via Internet")] :=
  C8_connected_text_amended
    { initChan 1 with status := ST_SETUP, station := some "EA4BAO", sockLive := true }
    { soErr := 0, errname2 := "WSAEISCONN" } "EA4BAO" rfl rfl rfl rfl

/-- C2: the claim (spec) is right and the code is wrong: both the
channel workers and the Command Interpreter can raise.  The `Y` handler
calls `int(args)` unguarded (`ValueError` on `b"Y2X"`); a `G0` poll of
a queue holding only a link-status event unpacks the bare `None` of
`Channel._get_msg` (`TypeError`); `channel._monitor` still calls
`Monitor.log` with the old `(mtype, msg, ftype)` convention so every
such call falls into monitor.py's unknown-code branch and dies on the
unbound `uisc` (`NameError`); and a `ConnectionResetError` on the first
`send` leaves the local `n` unbound, so the following `if n > 0` raises
`NameError` inside `Channel.run`. -/
theorem C2_interpreter_and_worker_raise :
    hostCmd (initTNC 4) 1 "Y2X" = .error .valueError ∧
    hostCmd { initTNC 1 with chans := [{ initChan 1 with msgs := [(MSG_S, "x")] }] } 1 "G0" =
      .error .typeError ∧
    monLog initMon (.int MSG_MON_H) "fm NOCALL to EA4BAO ctl SABM+" "U" =
      .error .nameError ∧
    (tick { initChan 1 with status := ST_CONN, station := some "EA4BAO", sockLive := true, buffer_tx := "hi" }
        { sendRes := .reset }).err = some .nameError := by
  exact ⟨rfl, rfl, rfl, rfl⟩

/-- C9 counterexample: a host-mode data request for channel `N+1 = 5`
on a 4-channel TNC is not answered with `COND_ERRMSG`: `host_data`
indexes `self.channels[5]` unchecked and raises `IndexError`. -/
theorem C9_invalid_channel_counterexample :
    hostData (initTNC 4) 5 "HI" = .error .indexError ∧
    (Except.error PyErr.indexError :
        Except PyErr (TNCState × String)) ≠
      .ok (initTNC 4, hostResponse 5 COND_ERRMSG "INVALID CHANNEL NUMBER") := by
  exact ⟨rfl, fun hh => Except.noConfusion hh⟩

/-- C9: requests to a channel number above N.  AMENDED after the
counterexample: only command requests are validated - `host_cmd`
answers `COND_ERRMSG "INVALID CHANNEL NUMBER"` with no other effect -
while data requests to a channel above N are not checked and raise
`IndexError` out of `host_data`. -/
theorem C9_invalid_channel_amended :
    (∀ (st : TNCState) (ch : Nat) (cmd : String), st.maxConn < ch →
      hostCmd st ch cmd =
        .ok (st, hostResponse ch COND_ERRMSG "INVALID CHANNEL NUMBER")) ∧
    (∀ (st : TNCState) (ch : Nat) (dat : String), st.chans.length = st.maxConn →
      st.maxConn < ch → hostData st ch dat = .error .indexError) := by
  constructor
  · intro st ch cmd h
    unfold hostCmd
    rw [if_pos h]
  · intro st ch dat hlen h
    unfold hostData
    rw [if_neg (by omega : ¬ ch = 0)]
    have hnone : st.chans.get? (ch - 1) = none := by
      rw [List.get?_eq_none]
      omega
    rw [hnone]

/-- Witness for C9: both amended statements at the concrete 4-channel
TNC with channel 5. -/
theorem C9_invalid_channel_witness :
    hostCmd (initTNC 4) 5 "G0" =
      .ok (initTNC 4, hostResponse 5 COND_ERRMSG "INVALID CHANNEL NUMBER") ∧
    hostData (initTNC 4) 5 "HI" = .error .indexError := by
  exact ⟨C9_invalid_channel_amended.1 (initTNC 4) 5 "G0" (by decide),
    C9_invalid_channel_amended.2 (initTNC 4) 5 "HI" (by decide) (by decide)⟩

/-- C10 counterexample: the engine upper-cases command lines before
dispatch, so the terminal input `ESC g 0 CR` is answered with
`"INVALID COMMAND: G0"` followed by CR LF - the upper-cased line, not
the line itself. -/
theorem C10_terminal_invalid_counterexample :
    termStep (initTNC 4) ['\x1b', 'g', '0', '\x0d'] =
      .ok (initTNC 4, "INVALID COMMAND: G0" ++ "\x0d\n", []) ∧
    ("INVALID COMMAND: G0" ++ "\x0d\n" : String) ≠
      "INVALID COMMAND: g0" ++ "\x0d\n" := by
  exact ⟨rfl, by decide⟩

/-- C10: in terminal mode, a command line whose upper-cased content is
not `"JHOST1"` is answered on the host stream.  AMENDED after the
counterexample: the response is `"INVALID COMMAND: "` followed by the
UPPER-CASED line and CR LF (the engine dispatches `buffer.upper()`);
for the input bytes `1B 47 30 0D` this gives
`"INVALID COMMAND: G0"` CR LF rather than no output. -/
theorem C10_terminal_invalid_amended :
    (∀ (st : TNCState) (input : List Char) (line : String) (rest : List Char),
      termRead input 0 "" = .ok ((1, line), rest) →
      pyUpper line ≠ "JHOST1" →
      termStep st input =
        .ok (st, "INVALID COMMAND: " ++ pyUpper line ++ "\x0d\n", rest)) ∧
    termStep (initTNC 4) ['\x1b', 'G', '0', '\x0d'] =
      .ok (initTNC 4, "INVALID COMMAND: G0" ++ "\x0d\n", []) := by
  constructor
  · intro st input line rest h hne
    unfold termStep
    rw [h]
    dsimp only
    rw [if_pos (by decide : (1 : Nat) ≠ 0)]
    unfold termCmd
    rw [if_neg hne]
    rfl
  · rfl

/-- Witness for C10: the amended statement at the lower-case input
`ESC g 0 CR`. -/
theorem C10_terminal_invalid_witness :
    termStep (initTNC 4) ['\x1b', 'g', '0', '\x0d'] =
      .ok (initTNC 4, "INVALID COMMAND: " ++ pyUpper "g0" ++ "\x0d\n", []) :=
  C10_terminal_invalid_amended.1 (initTNC 4) ['\x1b', 'g', '0', '\x0d'] "g0" []
    rfl (by decide)

end TNC
